import Mathlib

/-!
# Verification of diffengine against its specification

Shallow embedding of the relevant parts of the `diffengine` repository:

* `diffengine/datasets/transforms/loading.py`: `random_bbox`, `bbox2mask`,
  `LoadMask.transform`;
* `diffengine/models/editors/pixart_alpha/pixart_alpha_data_preprocessor.py`:
  `PixArtAlphaDataPreprocessor.forward`;
* the declarative configuration files under `configs/`.

Python integers are embedded as `Int` (with `Int.fdiv` for Python's floor
division `//`), numpy arrays as nested lists, Python dicts as insertion-ordered
association lists, and fallible code returns `Option`/`Except`.
-/

namespace Diffengine

/-! ## numpy random draws

`np.random.randint(low, high)` raises `ValueError` when `low >= high` and
otherwise returns a uniformly random integer in `[low, high)`.  We model the
randomness by an explicit `choice : Int` argument which is folded into the
half-open interval; every value of the interval is reachable (take
`choice = value`) and every outcome lies in the interval. -/

/-- Model of the external `np.random.randint(low, high)`: error when
`low >= high`, otherwise a value in `[low, high)` determined by `choice`. -/
def randint (low high choice : Int) : Except String Int :=
  if low < high then
    .ok (low + (choice - low) % (high - low))
  else
    .error "low >= high"

/-- The random draws consumed by one call of `random_bbox`, in the order the
source draws them: top, left, delta_top, delta_left. -/
structure BboxDraws where
  top : Int
  left : Int
  dtop : Int
  dleft : Int
  deriving DecidableEq, Repr

/-- Embedding of `random_bbox` from `diffengine/datasets/transforms/loading.py`
(after the int-to-tuple broadcast of the first lines): the three `ValueError`
checks, then the four `np.random.randint` draws, then the returned
`(top, left, h, w)`.  Python `//` is floor division, hence `Int.fdiv`. -/
def random_bbox (img_h img_w max_mask_h max_mask_w max_delta_h max_delta_w
    margin_h margin_w : Int) (d : BboxDraws) :
    Except String (Int × Int × Int × Int) :=
  if max_mask_h > img_h ∨ max_mask_w > img_w then
    .error "mask shape should be smaller than image shape"
  else if Int.fdiv max_delta_h 2 * 2 ≥ max_mask_h ∨
      Int.fdiv max_delta_w 2 * 2 ≥ max_mask_w then
    .error "mask delta should be smaller thanmask shape"
  else if img_h - max_mask_h < 2 * margin_h ∨
      img_w - max_mask_w < 2 * margin_w then
    .error "Margin cannot be satisfied"
  else do
    let max_top := img_h - margin_h - max_mask_h
    let max_left := img_w - margin_w - max_mask_w
    let top ← randint margin_h max_top d.top
    let left ← randint margin_w max_left d.left
    let delta_top ← randint 0 (Int.fdiv max_delta_h 2 + 1) d.dtop
    let delta_left ← randint 0 (Int.fdiv max_delta_w 2 + 1) d.dleft
    pure (top + delta_top, left + delta_left,
      max_mask_h - delta_top, max_mask_w - delta_left)

theorem randint_ok_bounds {low high choice v : Int}
    (h : randint low high choice = .ok v) : low ≤ v ∧ v < high := by
  unfold randint at h
  split at h
  · rename_i hlt
    cases h
    constructor
    · have := Int.emod_nonneg (choice - low) (by omega : high - low ≠ 0)
      omega
    · have := Int.emod_lt_of_pos (choice - low) (by omega : (0:Int) < high - low)
      omega
  · cases h

theorem randint_ok_iff {low high choice : Int} :
    (∃ v, randint low high choice = .ok v) ↔ low < high := by
  unfold randint
  split
  · rename_i h
    exact ⟨fun _ => h, fun _ => ⟨_, rfl⟩⟩
  · rename_i h
    constructor
    · rintro ⟨v, hv⟩
      cases hv
    · intro hc
      exact absurd hc h

theorem exists_ok_error {α : Type} (s : String) :
    ¬ ∃ r : α, (Except.error s : Except String α) = .ok r := by
  rintro ⟨r, hr⟩
  cases hr

/-- C3 (amended): `random_bbox` succeeds if and only if none of the three
explicit validation conditions holds and, additionally, none of the four
`np.random.randint` calls receives an empty range `[low, high)`. -/
theorem random_bbox_ok_iff (ih iw mmh mmw mdh mdw mgh mgw : Int)
    (d : BboxDraws) :
    (∃ r, random_bbox ih iw mmh mmw mdh mdw mgh mgw d = Except.ok r) ↔
    ¬((mmh > ih ∨ mmw > iw) ∨
      (Int.fdiv mdh 2 * 2 ≥ mmh ∨ Int.fdiv mdw 2 * 2 ≥ mmw) ∨
      (ih - mmh < 2 * mgh ∨ iw - mmw < 2 * mgw) ∨
      mgh ≥ ih - mgh - mmh ∨ mgw ≥ iw - mgw - mmw ∨
      Int.fdiv mdh 2 + 1 ≤ 0 ∨ Int.fdiv mdw 2 + 1 ≤ 0) := by
  generalize hA : Int.fdiv mdh 2 = A
  generalize hB : Int.fdiv mdw 2 = B
  unfold random_bbox
  rw [hA, hB]
  split
  · rename_i h1
    exact iff_of_false (exists_ok_error _) (fun hn => hn (Or.inl h1))
  split
  · rename_i h1 h2
    exact iff_of_false (exists_ok_error _) (fun hn => hn (Or.inr (Or.inl h2)))
  split
  · rename_i h1 h2 h3
    exact iff_of_false (exists_ok_error _)
      (fun hn => hn (Or.inr (Or.inr (Or.inl h3))))
  rename_i h1 h2 h3
  simp only [bind, Except.bind, pure, Except.pure]
  by_cases c1 : mgh < ih - mgh - mmh
  · rw [randint, if_pos c1]
    by_cases c2 : mgw < iw - mgw - mmw
    · rw [randint, if_pos c2]
      by_cases c3 : (0:Int) < A + 1
      · rw [randint, if_pos c3]
        by_cases c4 : (0:Int) < B + 1
        · rw [randint, if_pos c4]
          refine iff_of_true ⟨_, rfl⟩ ?_
          intro hn
          rcases hn with h | h | h | h | h | h | h
          · exact h1 h
          · exact h2 h
          · exact h3 h
          · omega
          · omega
          · omega
          · omega
        · rw [randint, if_neg c4]
          exact iff_of_false (exists_ok_error _)
            (fun hn => hn (by right; right; right; right; right; right; omega))
      · rw [randint, if_neg c3]
        exact iff_of_false (exists_ok_error _)
          (fun hn => hn (by right; right; right; right; right; left; omega))
    · rw [randint, if_neg c2]
      exact iff_of_false (exists_ok_error _)
        (fun hn => hn (by right; right; right; right; left; omega))
  · rw [randint, if_neg c1]
    exact iff_of_false (exists_ok_error _)
      (fun hn => hn (by right; right; right; left; omega))

/-- C3 counterexample: at `img_shape=(8,8)`, `max_bbox_shape=(4,4)`,
`max_bbox_delta=(2,2)`, `min_margin=(2,2)` all three validation conditions are
false, yet `random_bbox` still raises `ValueError` (from
`np.random.randint(2, 2)`), contradicting the claimed "if and only if". -/
theorem random_bbox_check_cex :
    ¬(((4:Int) > 8 ∨ (4:Int) > 8) ∨
      (Int.fdiv 2 2 * 2 ≥ (4:Int) ∨ Int.fdiv 2 2 * 2 ≥ (4:Int)) ∨
      ((8:Int) - 4 < 2 * 2 ∨ (8:Int) - 4 < 2 * 2)) ∧
    random_bbox 8 8 4 4 2 2 2 2 ⟨2, 2, 0, 0⟩ = .error "low >= high" := by
  constructor
  · decide
  · rfl

/-- C4: whenever `random_bbox` returns a bbox `(top, left, h, w)` (for any
outcome of the internal random draws), the bbox lies inside the image with the
requested margins and the mask shape lies in the documented range. -/
theorem random_bbox_bounds (ih iw mmh mmw mdh mdw mgh mgw : Int)
    (d : BboxDraws) (t l hh ww : Int)
    (h : random_bbox ih iw mmh mmw mdh mdw mgh mgw d = .ok (t, l, hh, ww)) :
    mgh ≤ t ∧ mgw ≤ l ∧ t + hh ≤ ih - mgh ∧ l + ww ≤ iw - mgw ∧
    mmh - Int.fdiv mdh 2 ≤ hh ∧ hh ≤ mmh ∧
    mmw - Int.fdiv mdw 2 ≤ ww ∧ ww ≤ mmw := by
  unfold random_bbox at h
  split at h
  · cases h
  split at h
  · cases h
  split at h
  · cases h
  simp only [bind, Except.bind, pure, Except.pure] at h
  cases hr1 : randint mgh (ih - mgh - mmh) d.top with
  | error s => simp [hr1] at h
  | ok top =>
  simp only [hr1] at h
  cases hr2 : randint mgw (iw - mgw - mmw) d.left with
  | error s => simp [hr2] at h
  | ok left =>
  simp only [hr2] at h
  cases hr3 : randint 0 (Int.fdiv mdh 2 + 1) d.dtop with
  | error s => simp [hr3] at h
  | ok dtop =>
  simp only [hr3] at h
  cases hr4 : randint 0 (Int.fdiv mdw 2 + 1) d.dleft with
  | error s => simp [hr4] at h
  | ok dleft =>
  simp only [hr4] at h
  have b1 := randint_ok_bounds hr1
  have b2 := randint_ok_bounds hr2
  have b3 := randint_ok_bounds hr3
  have b4 := randint_ok_bounds hr4
  simp only [Except.ok.injEq, Prod.mk.injEq] at h
  obtain ⟨he1, he2, he3, he4⟩ := h
  subst he1 he2 he3 he4
  generalize hA : Int.fdiv mdh 2 = A at b3 ⊢
  generalize hB : Int.fdiv mdw 2 = B at b4 ⊢
  omega

/-- Closed instance of `random_bbox_ok_iff` at a concrete, satisfiable input. -/
theorem random_bbox_ok_iff_witness :
    (∃ r, random_bbox 100 100 30 30 10 10 5 5 ⟨5, 5, 0, 0⟩ = Except.ok r) ↔
    ¬(((30:Int) > 100 ∨ (30:Int) > 100) ∨
      (Int.fdiv 10 2 * 2 ≥ (30:Int) ∨ Int.fdiv 10 2 * 2 ≥ (30:Int)) ∨
      ((100:Int) - 30 < 2 * 5 ∨ (100:Int) - 30 < 2 * 5) ∨
      (5:Int) ≥ 100 - 5 - 30 ∨ (5:Int) ≥ 100 - 5 - 30 ∨
      Int.fdiv 10 2 + 1 ≤ 0 ∨ Int.fdiv 10 2 + 1 ≤ 0) :=
  random_bbox_ok_iff 100 100 30 30 10 10 5 5 ⟨5, 5, 0, 0⟩

/-- Closed instance of `random_bbox_bounds`: a concrete successful call whose
result satisfies all the margin and shape bounds. -/
theorem random_bbox_bounds_witness :
    (5:Int) ≤ 5 ∧ (5:Int) ≤ 5 ∧ (5:Int) + 30 ≤ 100 - 5 ∧
    (5:Int) + 30 ≤ 100 - 5 ∧
    (30:Int) - Int.fdiv 10 2 ≤ 30 ∧ (30:Int) ≤ 30 ∧
    (30:Int) - Int.fdiv 10 2 ≤ 30 ∧ (30:Int) ≤ 30 :=
  random_bbox_bounds 100 100 30 30 10 10 5 5 ⟨5, 5, 0, 0⟩ 5 5 30 30 rfl

/-! ## `bbox2mask`

`bbox2mask(img_shape, bbox)` allocates `np.zeros((height, width, 1))` and then
performs the basic-slice assignment
`mask[bbox[0]:bbox[0]+bbox[2], bbox[1]:bbox[1]+bbox[3], :] = 1`.
numpy arrays are embedded as nested lists; basic slicing `a:b` touches exactly
the indices `i` with `a ≤ i < b` that exist, so slice assignment is embedded as
a positional walk over the list carrying the absolute index. -/

/-- `np.zeros((h, w, 1))` as a nested list. -/
def npZeros3 (h w : Nat) : List (List (List Nat)) :=
  List.replicate h (List.replicate w (List.replicate 1 0))

/-- Slice assignment `row[c:d, :] = 1` on one row, walking cells from absolute
column index `j`. -/
def setRowSliceAux (c d j : Nat) : List (List Nat) → List (List Nat)
  | [] => []
  | x :: xs =>
    (if c ≤ j ∧ j < d then x.map (fun _ => 1) else x) ::
      setRowSliceAux c d (j + 1) xs

/-- Slice assignment `m[a:b, c:d, :] = 1`, walking rows from absolute row
index `i`. -/
def setSliceAux (a b c d i : Nat) :
    List (List (List Nat)) → List (List (List Nat))
  | [] => []
  | r :: rs =>
    (if a ≤ i ∧ i < b then setRowSliceAux c d 0 r else r) ::
      setSliceAux a b c d (i + 1) rs

/-- Embedding of `bbox2mask` from `diffengine/datasets/transforms/loading.py`
for a bbox `(top, left, bh, bw)` with non-negative components. -/
def bbox2mask (ih iw top left bh bw : Nat) : List (List (List Nat)) :=
  setSliceAux top (top + bh) left (left + bw) 0 (npZeros3 ih iw)

/-- Total sum of all entries of the (h, w, 1) mask. -/
def sum3 (m : List (List (List Nat))) : Nat :=
  (m.map (fun row => (row.map List.sum).sum)).sum

theorem setRowSliceAux_replicate (c d : Nat) : ∀ (w j : Nat),
    setRowSliceAux c d j (List.replicate w (List.replicate 1 0)) =
    (List.range w).map
      (fun k => if c ≤ j + k ∧ j + k < d
        then List.replicate 1 1 else List.replicate 1 0) := by
  intro w
  induction w with
  | zero => intro j; rfl
  | succ w ih =>
    intro j
    rw [List.replicate_succ, List.range_succ_eq_map]
    simp only [setRowSliceAux, List.map_cons, List.map_map]
    refine List.cons_eq_cons.mpr ⟨by simp, ?_⟩
    rw [ih (j + 1)]
    apply List.map_congr_left
    intro k _
    simp only [Function.comp_apply]
    have h1 : j + 1 + k = j + (k + 1) := by omega
    rw [h1]

theorem setSliceAux_replicate (a b c d : Nat) (row : List (List Nat)) :
    ∀ (h i : Nat),
    setSliceAux a b c d i (List.replicate h row) =
    (List.range h).map
      (fun k => if a ≤ i + k ∧ i + k < b
        then setRowSliceAux c d 0 row else row) := by
  intro h
  induction h with
  | zero => intro i; rfl
  | succ h ih =>
    intro i
    rw [List.replicate_succ, List.range_succ_eq_map]
    simp only [setSliceAux, List.map_cons, List.map_map]
    refine List.cons_eq_cons.mpr ⟨by simp, ?_⟩
    rw [ih (i + 1)]
    apply List.map_congr_left
    intro k _
    simp only [Function.comp_apply]
    have h1 : i + 1 + k = i + (k + 1) := by omega
    rw [h1]

theorem sum_range_ite (c d v : Nat) : ∀ (w : Nat),
    ((List.range w).map (fun k => if c ≤ k ∧ k < d then v else 0)).sum =
    (min d w - min c w) * v := by
  intro w
  induction w with
  | zero => simp
  | succ w ih =>
    rw [List.range_succ, List.map_append, List.sum_append]
    simp only [List.map_cons, List.map_nil, List.sum_cons, List.sum_nil]
    rw [ih]
    split
    · rename_i hcd
      have : min d (w + 1) - min c (w + 1) = (min d w - min c w) + 1 := by
        omega
      rw [this]
      ring
    · rename_i hcd
      have : min d (w + 1) - min c (w + 1) = min d w - min c w := by
        omega
      rw [this]
      ring

theorem bbox2mask_eq (ih iw top left bh bw : Nat) :
    bbox2mask ih iw top left bh bw =
    (List.range ih).map (fun i =>
      if top ≤ i ∧ i < top + bh
      then (List.range iw).map (fun j =>
        if left ≤ j ∧ j < left + bw then [1] else [0])
      else List.replicate iw [0]) := by
  unfold bbox2mask npZeros3
  rw [setSliceAux_replicate]
  apply List.map_congr_left
  intro i _
  simp only [Nat.zero_add]
  split
  · rw [setRowSliceAux_replicate]
    apply List.map_congr_left
    intro k _
    simp only [Nat.zero_add]
    rfl
  · rfl

/-- C5: `bbox2mask` returns an array of shape `(height, width, 1)` whose entry
at pixel `(i, j)` is `1` exactly when the pixel lies in the bbox (clipped to
the image) and `0` otherwise, and whose total sum is the area of the bbox
clipped to the image. -/
theorem bbox2mask_spec (ih iw top left bh bw : Nat) :
    (bbox2mask ih iw top left bh bw).length = ih ∧
    (∀ row ∈ bbox2mask ih iw top left bh bw, row.length = iw ∧
      ∀ cell ∈ row, cell.length = 1) ∧
    (∀ i j, i < ih → j < iw →
      ((bbox2mask ih iw top left bh bw).getD i []).getD j [] =
        (if top ≤ i ∧ i < top + bh ∧ left ≤ j ∧ j < left + bw
         then [1] else [0])) ∧
    sum3 (bbox2mask ih iw top left bh bw) =
      (min (top + bh) ih - top) * (min (left + bw) iw - left) := by
  rw [bbox2mask_eq]
  refine ⟨by simp, ?_, ?_, ?_⟩
  · intro row hrow
    rw [List.mem_map] at hrow
    obtain ⟨i, _, hrow⟩ := hrow
    subst hrow
    split
    · refine ⟨by simp, ?_⟩
      intro cell hcell
      rw [List.mem_map] at hcell
      obtain ⟨j, _, hcell⟩ := hcell
      subst hcell
      split <;> rfl
    · refine ⟨by simp, ?_⟩
      intro cell hcell
      rw [List.eq_of_mem_replicate hcell]
      rfl
  · intro i j hi hj
    simp only [List.getD_eq_getElem?_getD, List.getElem?_map,
      List.getElem?_range hi]
    simp only [Option.map_some', Option.getD_some]
    by_cases hrow : top ≤ i ∧ i < top + bh
    · rw [if_pos hrow]
      simp only [List.getElem?_map, List.getElem?_range hj,
        Option.map_some', Option.getD_some]
      split_ifs <;> tauto
    · rw [if_neg hrow]
      rw [List.getElem?_replicate, if_pos hj]
      simp only [Option.getD_some]
      split_ifs <;> tauto
  · unfold sum3
    rw [List.map_map]
    have hrow : ∀ i : Nat,
        ((fun row => (List.map List.sum row).sum) ∘ fun i =>
          if top ≤ i ∧ i < top + bh
          then (List.range iw).map (fun j =>
            if left ≤ j ∧ j < left + bw then [1] else [0])
          else List.replicate iw [0]) i =
        (if top ≤ i ∧ i < top + bh
          then (min (left + bw) iw - min left iw) else 0) := by
      intro i
      simp only [Function.comp_apply]
      split
      · rw [List.map_map]
        have : (List.sum ∘ fun j =>
            if left ≤ j ∧ j < left + bw then ([1]:List Nat) else [0]) =
            (fun j => if left ≤ j ∧ j < left + bw then 1 else 0) := by
          funext j
          simp only [Function.comp_apply]
          split <;> rfl
        rw [this]
        have := sum_range_ite left (left + bw) 1 iw
        simpa using this
      · simp
    rw [List.map_congr_left (fun i _ => hrow i)]
    rw [sum_range_ite top (top + bh) (min (left + bw) iw - min left iw) ih]
    have h1 : min (top + bh) ih - min top ih = min (top + bh) ih - top := by
      omega
    have h2 : min (left + bw) iw - min left iw = min (left + bw) iw - left := by
      omega
    rw [h1, h2]

/-- Closed instance of `bbox2mask_spec` on a 3x4 image with bbox
`(1, 1, 1, 2)`: the entry inside the box is 1 and the sum is the area 2. -/
theorem bbox2mask_spec_witness :
    ((bbox2mask 3 4 1 1 1 2).getD 1 []).getD 1 [] =
      (if 1 ≤ 1 ∧ 1 < 1 + 1 ∧ 1 ≤ 1 ∧ 1 < 1 + 2 then [1] else [0]) ∧
    sum3 (bbox2mask 3 4 1 1 1 2) = (min (1 + 1) 3 - 1) * (min (1 + 2) 4 - 1) :=
  ⟨(bbox2mask_spec 3 4 1 1 1 2).2.2.1 1 1 (by decide) (by decide),
   (bbox2mask_spec 3 4 1 1 1 2).2.2.2⟩

/-! ## `LoadMask`

`LoadMask.transform` dispatches on `self.mask_mode`.  Only the set of result
keys and the raised error matter to the claims, so the results dict is
embedded by its key list; the `irregular`/`ff` mask generators call external
image libraries and only ever produce a mask value, never touching keys.  The
`bbox` branch calls `random_bbox` (which can raise) and `bbox2mask`. -/

/-- The mask modes listed in the `LoadMask` class docstring
(`mask_mode (str): Mask mode in ['bbox', 'irregular', 'ff', 'set']`). -/
def LoadMask_documented_modes : List String := ["bbox", "irregular", "ff", "set"]

/-- Embedding of `LoadMask.transform`, tracking the keys of the `results`
dict.  `imgH, imgW` come from `results['img']`; `mbs, mbd, mmg` are the
`mask_config` forwarded to `random_bbox` in `bbox` mode, and `d` its random
draws. -/
def LoadMask_transform (mask_mode : String) (imgH imgW : Int)
    (mbs mbd mmg : Int × Int) (d : BboxDraws) (results : List String) :
    Except String (List String) :=
  if mask_mode = "bbox" then do
    let _mask_bbox ← random_bbox imgH imgW mbs.1 mbs.2 mbd.1 mbd.2
      mmg.1 mmg.2 d
    pure (results ++ ["mask_bbox", "mask"])
  else if mask_mode = "irregular" then
    pure (results ++ ["mask"])
  else if mask_mode = "ff" then
    pure (results ++ ["mask"])
  else
    .error ("Mask mode " ++ mask_mode ++ " has not been implemented.")

/-- C6: `LoadMask.transform` adds the key `mask` (plus `mask_bbox` exactly in
`bbox` mode) for the modes `bbox`, `irregular`, `ff`, and raises
`NotImplementedError` for every other mode — in particular for `set`, which
the class docstring lists as supported. -/
theorem loadMask_transform_modes (mode : String) (imgH imgW : Int)
    (mbs mbd mmg : Int × Int) (d : BboxDraws) (results : List String)
    (hbbox : ∃ r, random_bbox imgH imgW mbs.1 mbs.2 mbd.1 mbd.2
      mmg.1 mmg.2 d = .ok r) :
    (mode = "bbox" →
      LoadMask_transform mode imgH imgW mbs mbd mmg d results =
        .ok (results ++ ["mask_bbox", "mask"])) ∧
    (mode = "irregular" ∨ mode = "ff" →
      LoadMask_transform mode imgH imgW mbs mbd mmg d results =
        .ok (results ++ ["mask"])) ∧
    (mode ∉ (["bbox", "irregular", "ff"] : List String) →
      LoadMask_transform mode imgH imgW mbs mbd mmg d results =
        .error ("Mask mode " ++ mode ++ " has not been implemented.")) ∧
    "set" ∈ LoadMask_documented_modes ∧
    "set" ∉ (["bbox", "irregular", "ff"] : List String) := by
  obtain ⟨r, hr⟩ := hbbox
  refine ⟨?_, ?_, ?_, by decide, by decide⟩
  · intro hm
    subst hm
    simp only [LoadMask_transform, if_pos rfl, hr, bind, Except.bind]
    rfl
  · rintro (hm | hm) <;> subst hm <;> rfl
  · intro hm
    simp only [List.mem_cons, List.mem_singleton, List.not_mem_nil] at hm
    push_neg at hm
    obtain ⟨h1, h2, h3, -⟩ := hm
    simp only [LoadMask_transform, if_neg h1, if_neg h2, if_neg h3]

/-- Closed instance of `loadMask_transform_modes`: in `irregular` mode the
transform succeeds and appends exactly the `mask` key. -/
theorem loadMask_transform_modes_witness :
    LoadMask_transform "irregular" 100 100 (30, 30) (10, 10) (5, 5)
      ⟨5, 5, 0, 0⟩ ["img"] = .ok (["img"] ++ ["mask"]) :=
  (loadMask_transform_modes "irregular" 100 100 (30, 30) (10, 10) (5, 5)
    ⟨5, 5, 0, 0⟩ ["img"] ⟨(5, 5, 30, 30), rfl⟩).2.1 (Or.inl rfl)

/-! ## PixArtAlphaDataPreprocessor

`PixArtAlphaDataPreprocessor.forward` mutates the Python dict
`data["inputs"]` (string-keyed, insertion ordered) and finally returns
`super().forward(data)`, the external `mmengine` base-class forward, which we
abstract as an opaque function `base : Dict → Dict`.  Dicts are embedded as
association lists; Python dict assignment updates in place when the key
exists and appends otherwise, and `dict.pop` removes the entry. -/

/-- A dense tensor: a shape and the row-major flattened data. -/
structure Tensor where
  shape : List Nat
  data : List Int
  deriving DecidableEq, Repr

/-- Model of the external `torch.stack` on a list of tensors: raises on an
empty list or mismatched shapes, otherwise stacks along a new leading
dimension of size the length of the list, concatenating the data in order. -/
def Tensor.stack : List Tensor → Option Tensor
  | [] => none
  | t :: rest =>
    if rest.all (fun u => u.shape == t.shape)
    then some ⟨(t :: rest).length :: t.shape,
      ((t :: rest).map Tensor.data).flatten⟩
    else none

/-- Values stored in the `data` dict: batch tensors, lists of per-sample
tensors, lists of caption strings, and nested dicts. -/
inductive Val where
  | tensor (t : Tensor)
  | tensorList (ts : List Tensor)
  | strList (ss : List String)
  | dict (entries : List (String × Val))

/-- A Python dict: insertion-ordered association list with unique keys. -/
abbrev Dict := List (String × Val)

/-- `d[k]` as an option. -/
def dget (d : Dict) (k : String) : Option Val :=
  (d.find? (fun p => p.1 == k)).map (fun p => p.2)

/-- Python `d[k] = v`: overwrite in place when `k` is present (keeping the
insertion order), append otherwise. -/
def dset (d : Dict) (k : String) (v : Val) : Dict :=
  if (d.find? (fun p => p.1 == k)).isSome then
    d.map (fun p => if p.1 == k then (k, v) else p)
  else
    d ++ [(k, v)]

/-- Python `d.pop(k)` without default: the value and the dict with the entry
removed, or `none` (a `KeyError`) when absent. -/
def dpop (d : Dict) (k : String) : Option (Val × Dict) :=
  match dget d k with
  | some v => some (v, d.filter (fun p => !(p.1 == k)))
  | none => none

def Val.asDict : Val → Option Dict
  | .dict e => some e
  | _ => none

def Val.asTensorList : Val → Option (List Tensor)
  | .tensorList ts => some ts
  | _ => none

def Val.asStrList : Val → Option (List String)
  | .strList ss => some ss
  | _ => none

theorem dget_cons (p : String × Val) (d : Dict) (k : String) :
    dget (p :: d) k = if p.1 == k then some p.2 else dget d k := by
  cases hp : (p.1 == k)
  · rw [dget, List.find?_cons_of_neg _ (by simp [hp]), if_neg (by simp [hp])]
    rfl
  · rw [dget, List.find?_cons_of_pos _ (by simp [hp]), if_pos (by simp [hp])]
    rfl

theorem dget_dset_self (d : Dict) (k : String) (v : Val) :
    dget (dset d k v) k = some v := by
  unfold dset
  split
  · rename_i hfind
    induction d with
    | nil => simp [dget] at hfind
    | cons p d ih =>
      rw [List.map_cons]
      cases hp : (p.1 == k)
      · rw [if_neg (by simp [hp]), dget_cons, if_neg (by simp [hp])]
        apply ih
        rwa [List.find?_cons_of_neg _ (by simp [hp])] at hfind
      · rw [if_pos (by simp [hp]), dget_cons]
        simp
  · rename_i hfind
    induction d with
    | nil =>
      rw [List.nil_append, dget_cons]
      simp
    | cons p d ih =>
      cases hp : (p.1 == k)
      · rw [List.cons_append, dget_cons, if_neg (by simp [hp])]
        apply ih
        rwa [List.find?_cons_of_neg _ (by simp [hp])] at hfind
      · rw [List.find?_cons_of_pos _ (by simp [hp])] at hfind
        simp at hfind

theorem dget_dset_ne (d : Dict) (k k' : String) (v : Val) (h : k' ≠ k) :
    dget (dset d k v) k' = dget d k' := by
  have hkk : (k == k') = false := beq_eq_false_iff_ne.mpr (Ne.symm h)
  unfold dset
  split
  · rename_i hfind
    clear hfind
    induction d with
    | nil => rfl
    | cons p d ih =>
      rw [List.map_cons]
      cases hp : (p.1 == k)
      · rw [if_neg (by simp [hp]), dget_cons, dget_cons]
        cases hq : (p.1 == k')
        · rw [if_neg (by simp [hq]), if_neg (by simp [hq])]
          exact ih
        · rw [if_pos (by simp [hq]), if_pos (by simp [hq])]
      · have hpk : p.1 = k := by simpa using hp
        rw [if_pos (by simp [hp]), dget_cons, dget_cons,
          if_neg (by simp [hkk]), if_neg (by simp [hpk, hkk])]
        exact ih
  · rename_i hfind
    clear hfind
    induction d with
    | nil =>
      rw [List.nil_append, dget_cons, if_neg (by simp [hkk])]
    | cons p d ih =>
      rw [List.cons_append, dget_cons, dget_cons]
      cases hq : (p.1 == k')
      · rw [if_neg (by simp [hq]), if_neg (by simp [hq])]
        exact ih
      · rw [if_pos (by simp [hq]), if_pos (by simp [hq])]

theorem dget_filter_self (d : Dict) (k : String) :
    dget (d.filter (fun p => !(p.1 == k))) k = none := by
  induction d with
  | nil => rfl
  | cons p d ih =>
    rw [List.filter_cons]
    cases hp : (p.1 == k)
    · rw [if_pos (by simp [hp]), dget_cons, if_neg (by simp [hp])]
      exact ih
    · rw [if_neg (by simp [hp])]
      exact ih

theorem dget_filter_ne (d : Dict) (k k' : String) (h : k' ≠ k) :
    dget (d.filter (fun p => !(p.1 == k))) k' = dget d k' := by
  induction d with
  | nil => rfl
  | cons p d ih =>
    rw [List.filter_cons]
    cases hp : (p.1 == k)
    · rw [if_pos (by simp [hp]), dget_cons, dget_cons]
      cases hq : (p.1 == k')
      · rw [if_neg (by simp [hq]), if_neg (by simp [hq])]
        exact ih
      · rw [if_pos (by simp [hq]), if_pos (by simp [hq])]
    · have hpk : p.1 = k := by simpa using hp
      rw [if_neg (by simp [hp]), dget_cons,
        if_neg (by simp [hpk]; exact fun hc => h hc.symm)]
      exact ih

theorem dpop_eval (d : Dict) (k : String) (v : Val)
    (h : dget d k = some v) :
    dpop d k = some (v, d.filter (fun p => !(p.1 == k))) := by
  unfold dpop
  rw [h]

/-- One conditional stacking step of `forward`:
`if k in data["inputs"]: data["inputs"][k] = torch.stack(data["inputs"][k])`
(the source repeats this line for `"resolution"` and `"aspect_ratio"`). -/
def stackEntry (inputs : Dict) (k : String) : Option Dict :=
  match dget inputs k with
  | none => some inputs
  | some v => do
    let ts ← v.asTensorList
    let st ← Tensor.stack ts
    some (dset inputs k (.tensor st))

/-- One conditional class-image append step of `forward`:
`if k in data["inputs"]: data["inputs"][k] = data["inputs"][k] +
data["inputs"]["result_class_image"].pop(k)` (the source repeats this for
`"resolution"` and `"aspect_ratio"`); returns the updated `inputs` and the
popped `result_class_image` sub-dict. -/
def appendClassTL (inputs rci : Dict) (k : String) : Option (Dict × Dict) :=
  match dget inputs k with
  | none => some (inputs, rci)
  | some v => do
    let ts ← v.asTensorList
    let p ← dpop rci k
    let cts ← p.1.asTensorList
    some (dset inputs k (.tensorList (ts ++ cts)), p.2)

/-- The `dreambooth with class image` block of `forward`: append the
`result_class_image` sub-dict's `text`/`img` (and, when present in the
inputs, `resolution`/`aspect_ratio`) lists onto the corresponding `inputs`
entries, popping each from the sub-dict, and write the popped sub-dict back
(in Python the sub-dict is mutated in place through the alias). -/
def mergeResultClassImage (inputs0 : Dict) (rciV : Val) : Option Dict := do
  let rci0 ← rciV.asDict
  let textV ← dget inputs0 "text"
  let text ← textV.asStrList
  let p1 ← dpop rci0 "text"
  let ctext ← p1.1.asStrList
  let i1 := dset inputs0 "text" (.strList (text ++ ctext))
  let imgV ← dget i1 "img"
  let img ← imgV.asTensorList
  let p2 ← dpop p1.2 "img"
  let cimg ← p2.1.asTensorList
  let i2 := dset i1 "img" (.tensorList (img ++ cimg))
  let s3 ← appendClassTL i2 p2.2 "resolution"
  let s4 ← appendClassTL s3.1 s3.2 "aspect_ratio"
  some (dset s4.1 "result_class_image" (.dict s4.2))

/-- The stacking tail of `forward`: stack `img`, then `resolution` and
`aspect_ratio` when present, and write the reshaped inputs dict back into
`data`. -/
def pafTail (data inputs1 : Dict) : Option Dict := do
  let imgV2 ← dget inputs1 "img"
  let imgs ← imgV2.asTensorList
  let st ← Tensor.stack imgs
  let inputs2 := dset inputs1 "img" (.tensor st)
  let inputs3 ← stackEntry inputs2 "resolution"
  let inputs4 ← stackEntry inputs3 "aspect_ratio"
  some (dset data "inputs" (.dict inputs4))

/-- The dict-reshaping body of `PixArtAlphaDataPreprocessor.forward`
(everything before the final `return super().forward(data)`), with Python
exceptions modelled as `none`.  The in-place mutation of `data["inputs"]` and
of the `result_class_image` sub-dict is threaded functionally and written back
where the source's aliasing makes it observable. -/
def pafInner (data : Dict) : Option Dict := do
  let inputsV ← dget data "inputs"
  let inputs0 ← inputsV.asDict
  let inputs1 ← (match dget inputs0 "result_class_image" with
    | none => some inputs0
    | some rciV => mergeResultClassImage inputs0 rciV)
  pafTail data inputs1

/-- `PixArtAlphaDataPreprocessor.forward`: reshape the dict, then return the
external base class's forward (abstracted as `base`) applied to it. -/
def pafForward (base : Dict → Dict) (data : Dict) : Option Dict :=
  (pafInner data).map base

theorem tensor_stack_cons (t0 : Tensor) (rest : List Tensor)
    (h : ∀ u ∈ rest, u.shape = t0.shape) :
    Tensor.stack (t0 :: rest) = some ⟨(t0 :: rest).length :: t0.shape,
      ((t0 :: rest).map Tensor.data).flatten⟩ := by
  have hall : rest.all (fun u => u.shape == t0.shape) = true := by
    rw [List.all_eq_true]
    intro u hu
    simpa using h u hu
  simp [Tensor.stack, hall]

theorem stackEntry_none (inputs : Dict) (k : String)
    (h : dget inputs k = none) : stackEntry inputs k = some inputs := by
  unfold stackEntry
  rw [h]

theorem stackEntry_some (inputs : Dict) (k : String) (t0 : Tensor)
    (rest : List Tensor)
    (hget : dget inputs k = some (.tensorList (t0 :: rest)))
    (hsh : ∀ u ∈ rest, u.shape = t0.shape) :
    stackEntry inputs k = some (dset inputs k (.tensor
      ⟨(t0 :: rest).length :: t0.shape,
        ((t0 :: rest).map Tensor.data).flatten⟩)) := by
  unfold stackEntry
  rw [hget]
  simp [Val.asTensorList, tensor_stack_cons t0 rest hsh]

theorem appendClassTL_none (inputs rci : Dict) (k : String)
    (h : dget inputs k = none) :
    appendClassTL inputs rci k = some (inputs, rci) := by
  unfold appendClassTL
  rw [h]

theorem appendClassTL_some (inputs rci : Dict) (k : String)
    (ts cts : List Tensor)
    (hi : dget inputs k = some (.tensorList ts))
    (hr : dget rci k = some (.tensorList cts)) :
    appendClassTL inputs rci k =
      some (dset inputs k (.tensorList (ts ++ cts)),
        rci.filter (fun p => !(p.1 == k))) := by
  unfold appendClassTL
  rw [hi]
  simp [Val.asTensorList, dpop_eval rci k _ hr]

theorem stackEntry_frame (inputs out : Dict) (k : String)
    (h : stackEntry inputs k = some out) (k' : String) (hk : k' ≠ k) :
    dget out k' = dget inputs k' := by
  unfold stackEntry at h
  split at h
  · cases h
    rfl
  · rename_i v hv
    cases hts : v.asTensorList with
    | none => rw [hts] at h; simp at h
    | some ts =>
      rw [hts] at h
      simp only [Option.bind_eq_bind, Option.some_bind] at h
      cases hst : Tensor.stack ts with
      | none => rw [hst] at h; simp at h
      | some st =>
        rw [hst] at h
        simp only [Option.bind_eq_bind, Option.some_bind,
          Option.some.injEq] at h
        subst h
        exact dget_dset_ne inputs k k' _ hk

theorem appendClassTL_frame (inputs rci : Dict) (s : Dict × Dict)
    (k : String) (h : appendClassTL inputs rci k = some s)
    (k' : String) (hk : k' ≠ k) :
    dget s.1 k' = dget inputs k' ∧ dget s.2 k' = dget rci k' := by
  unfold appendClassTL at h
  split at h
  · cases h
    exact ⟨rfl, rfl⟩
  · rename_i v hv
    cases hts : v.asTensorList with
    | none => rw [hts] at h; simp at h
    | some ts =>
      rw [hts] at h
      simp only [Option.bind_eq_bind, Option.some_bind] at h
      cases hp : dpop rci k with
      | none => rw [hp] at h; simp at h
      | some p =>
        rw [hp] at h
        simp only [Option.bind_eq_bind, Option.some_bind] at h
        cases hcts : p.1.asTensorList with
        | none => rw [hcts] at h; simp at h
        | some cts =>
          rw [hcts] at h
          simp only [Option.bind_eq_bind, Option.some_bind,
            Option.some.injEq] at h
          subst h
          refine ⟨dget_dset_ne inputs k k' _ hk, ?_⟩
          unfold dpop at hp
          cases hg : dget rci k with
          | none => rw [hg] at hp; cases hp
          | some w =>
            rw [hg] at hp
            cases hp
            exact dget_filter_ne rci k k' hk

theorem pafInner_no_rci (data inputs : Dict) (imgs : List Tensor)
    (stImg : Tensor) (i3 i4 : Dict)
    (hin : dget data "inputs" = some (.dict inputs))
    (hrci : dget inputs "result_class_image" = none)
    (himg : dget inputs "img" = some (.tensorList imgs))
    (hst : Tensor.stack imgs = some stImg)
    (h3 : stackEntry (dset inputs "img" (.tensor stImg)) "resolution" = some i3)
    (h4 : stackEntry i3 "aspect_ratio" = some i4) :
    pafInner data = some (dset data "inputs" (.dict i4)) := by
  unfold pafInner
  rw [hin]
  simp only [Option.bind_eq_bind, Option.some_bind, Val.asDict]
  rw [hrci]
  simp only [Option.bind_eq_bind, Option.some_bind]
  unfold pafTail
  rw [himg]
  simp only [Val.asTensorList, Option.bind_eq_bind, Option.some_bind]
  rw [hst]
  simp only [Option.bind_eq_bind, Option.some_bind]
  rw [h3]
  simp only [Option.bind_eq_bind, Option.some_bind]
  rw [h4]
  simp only [Option.bind_eq_bind, Option.some_bind]

theorem pafInner_rci (data inputs rci0 : Dict) (text ctext : List String)
    (rci1 : Dict) (imgs cimgs : List Tensor) (rci2 : Dict)
    (s3 s4 : Dict × Dict) (stImg : Tensor) (i3 i4 : Dict)
    (hin : dget data "inputs" = some (.dict inputs))
    (hrciv : dget inputs "result_class_image" = some (.dict rci0))
    (htext : dget inputs "text" = some (.strList text))
    (hp1 : dpop rci0 "text" = some (.strList ctext, rci1))
    (himg : dget (dset inputs "text" (.strList (text ++ ctext))) "img" =
      some (.tensorList imgs))
    (hp2 : dpop rci1 "img" = some (.tensorList cimgs, rci2))
    (h3 : appendClassTL
      (dset (dset inputs "text" (.strList (text ++ ctext))) "img"
        (.tensorList (imgs ++ cimgs))) rci2 "resolution" = some s3)
    (h4 : appendClassTL s3.1 s3.2 "aspect_ratio" = some s4)
    (himgGet : dget (dset s4.1 "result_class_image" (.dict s4.2)) "img" =
      some (.tensorList (imgs ++ cimgs)))
    (hst : Tensor.stack (imgs ++ cimgs) = some stImg)
    (h5 : stackEntry (dset (dset s4.1 "result_class_image" (.dict s4.2))
      "img" (.tensor stImg)) "resolution" = some i3)
    (h6 : stackEntry i3 "aspect_ratio" = some i4) :
    pafInner data = some (dset data "inputs" (.dict i4)) := by
  unfold pafInner
  rw [hin]
  simp only [Option.bind_eq_bind, Option.some_bind, Val.asDict]
  rw [hrciv]
  simp only [Option.bind_eq_bind, Option.some_bind]
  unfold mergeResultClassImage
  simp only [Val.asDict, Option.bind_eq_bind, Option.some_bind]
  rw [htext]
  simp only [Val.asStrList, Option.bind_eq_bind, Option.some_bind]
  rw [hp1]
  simp only [Val.asStrList, Option.bind_eq_bind, Option.some_bind]
  rw [himg]
  simp only [Val.asTensorList, Option.bind_eq_bind, Option.some_bind]
  rw [hp2]
  simp only [Val.asTensorList, Option.bind_eq_bind, Option.some_bind]
  rw [h3]
  simp only [Option.bind_eq_bind, Option.some_bind]
  rw [h4]
  simp only [Option.bind_eq_bind, Option.some_bind]
  unfold pafTail
  rw [himgGet]
  simp only [Val.asTensorList, Option.bind_eq_bind, Option.some_bind]
  rw [hst]
  simp only [Option.bind_eq_bind, Option.some_bind]
  rw [h5]
  simp only [Option.bind_eq_bind, Option.some_bind]
  rw [h6]
  simp only [Option.bind_eq_bind, Option.some_bind]

/-- C1 (amended): on a data dict whose `inputs.img` is a non-empty list of
equal-shaped tensors, with no `result_class_image` entry, and whose
`resolution`/`aspect_ratio` entries (when present) are themselves non-empty
equal-shaped tensor lists, `forward` replaces `img` by a batch tensor stacked
along a new leading dimension of size the length of the list, does the same
for `resolution` and `aspect_ratio` exactly when present, and returns the
base class's forward applied to the reshaped dict. -/
theorem pixart_forward_stacks (base : Dict → Dict) (data inputs : Dict)
    (t0 : Tensor) (imgRest : List Tensor)
    (resv arv : Option (Tensor × List Tensor))
    (hin : dget data "inputs" = some (.dict inputs))
    (hrci : dget inputs "result_class_image" = none)
    (himg : dget inputs "img" = some (.tensorList (t0 :: imgRest)))
    (hsh : ∀ u ∈ imgRest, u.shape = t0.shape)
    (hres : match resv with
      | none => dget inputs "resolution" = none
      | some (r0, rs) =>
        dget inputs "resolution" = some (.tensorList (r0 :: rs)) ∧
        ∀ u ∈ rs, u.shape = r0.shape)
    (har : match arv with
      | none => dget inputs "aspect_ratio" = none
      | some (a0, as0) =>
        dget inputs "aspect_ratio" = some (.tensorList (a0 :: as0)) ∧
        ∀ u ∈ as0, u.shape = a0.shape) :
    ∃ inputs' : Dict,
      pafForward base data = some (base (dset data "inputs" (.dict inputs'))) ∧
      (∃ st : Tensor, dget inputs' "img" = some (.tensor st) ∧
        st.shape = (t0 :: imgRest).length :: t0.shape) ∧
      (match resv with
        | none => dget inputs' "resolution" = dget inputs "resolution"
        | some (r0, rs) => ∃ st : Tensor,
            dget inputs' "resolution" = some (.tensor st) ∧
            st.shape = (r0 :: rs).length :: r0.shape) ∧
      (match arv with
        | none => dget inputs' "aspect_ratio" = dget inputs "aspect_ratio"
        | some (a0, as0) => ∃ st : Tensor,
            dget inputs' "aspect_ratio" = some (.tensor st) ∧
            st.shape = (a0 :: as0).length :: a0.shape) := by
  have hstack := tensor_stack_cons t0 imgRest hsh
  set stImg : Tensor := ⟨(t0 :: imgRest).length :: t0.shape,
    ((t0 :: imgRest).map Tensor.data).flatten⟩ with hstImg
  set inputs2 := dset inputs "img" (.tensor stImg) with hinputs2
  have hrne : ("resolution" : String) ≠ "img" := by decide
  have harne : ("aspect_ratio" : String) ≠ "img" := by decide
  have harres : ("aspect_ratio" : String) ≠ "resolution" := by decide
  have hresar : ("resolution" : String) ≠ "aspect_ratio" := by decide
  have himgne : ("img" : String) ≠ "resolution" := by decide
  have himgnar : ("img" : String) ≠ "aspect_ratio" := by decide
  have hres2 : dget inputs2 "resolution" = dget inputs "resolution" :=
    dget_dset_ne _ _ _ _ hrne
  have har2 : dget inputs2 "aspect_ratio" = dget inputs "aspect_ratio" :=
    dget_dset_ne _ _ _ _ harne
  rcases resv with _ | ⟨r0, rs⟩
  · have h3 : stackEntry inputs2 "resolution" = some inputs2 :=
      stackEntry_none _ _ (hres2.trans hres)
    rcases arv with _ | ⟨a0, as0⟩
    · have h4 : stackEntry inputs2 "aspect_ratio" = some inputs2 :=
        stackEntry_none _ _ (har2.trans har)
      have heval := pafInner_no_rci data inputs (t0 :: imgRest) stImg
        inputs2 inputs2 hin hrci himg hstack h3 h4
      refine ⟨inputs2, ?_, ?_, ?_, ?_⟩
      · unfold pafForward
        rw [heval]
        rfl
      · exact ⟨stImg, dget_dset_self _ _ _, rfl⟩
      · exact hres2
      · exact har2
    · obtain ⟨har1, harsh⟩ := har
      have hga : dget inputs2 "aspect_ratio" = some (.tensorList (a0 :: as0)) :=
        har2.trans har1
      have h4 := stackEntry_some inputs2 "aspect_ratio" a0 as0 hga harsh
      set stAr : Tensor := ⟨(a0 :: as0).length :: a0.shape,
        ((a0 :: as0).map Tensor.data).flatten⟩ with hstAr
      set i4 := dset inputs2 "aspect_ratio" (.tensor stAr) with hi4
      have heval := pafInner_no_rci data inputs (t0 :: imgRest) stImg
        inputs2 i4 hin hrci himg hstack h3 h4
      refine ⟨i4, ?_, ?_, ?_, ?_⟩
      · unfold pafForward
        rw [heval]
        rfl
      · exact ⟨stImg, (dget_dset_ne _ _ _ _ himgnar).trans
          (dget_dset_self _ _ _), rfl⟩
      · exact (dget_dset_ne _ _ _ _ hresar).trans hres2
      · exact ⟨stAr, dget_dset_self _ _ _, rfl⟩
  · obtain ⟨hres1, hressh⟩ := hres
    have hgr : dget inputs2 "resolution" = some (.tensorList (r0 :: rs)) :=
      hres2.trans hres1
    have h3 := stackEntry_some inputs2 "resolution" r0 rs hgr hressh
    set stRes : Tensor := ⟨(r0 :: rs).length :: r0.shape,
      ((r0 :: rs).map Tensor.data).flatten⟩ with hstRes
    set i3 := dset inputs2 "resolution" (.tensor stRes) with hi3
    have har3 : dget i3 "aspect_ratio" = dget inputs "aspect_ratio" :=
      (dget_dset_ne _ _ _ _ harres).trans har2
    rcases arv with _ | ⟨a0, as0⟩
    · have h4 : stackEntry i3 "aspect_ratio" = some i3 :=
        stackEntry_none _ _ (har3.trans har)
      have heval := pafInner_no_rci data inputs (t0 :: imgRest) stImg
        i3 i3 hin hrci himg hstack h3 h4
      refine ⟨i3, ?_, ?_, ?_, ?_⟩
      · unfold pafForward
        rw [heval]
        rfl
      · exact ⟨stImg, (dget_dset_ne _ _ _ _ himgne).trans
          (dget_dset_self _ _ _), rfl⟩
      · exact ⟨stRes, dget_dset_self _ _ _, rfl⟩
      · exact har3
    · obtain ⟨har1, harsh⟩ := har
      have hga : dget i3 "aspect_ratio" = some (.tensorList (a0 :: as0)) :=
        har3.trans har1
      have h4 := stackEntry_some i3 "aspect_ratio" a0 as0 hga harsh
      set stAr : Tensor := ⟨(a0 :: as0).length :: a0.shape,
        ((a0 :: as0).map Tensor.data).flatten⟩ with hstAr
      set i4 := dset i3 "aspect_ratio" (.tensor stAr) with hi4
      have heval := pafInner_no_rci data inputs (t0 :: imgRest) stImg
        i3 i4 hin hrci himg hstack h3 h4
      refine ⟨i4, ?_, ?_, ?_, ?_⟩
      · unfold pafForward
        rw [heval]
        rfl
      · exact ⟨stImg, ((dget_dset_ne _ _ _ _ himgnar).trans
          ((dget_dset_ne _ _ _ _ himgne).trans (dget_dset_self _ _ _))), rfl⟩
      · exact ⟨stRes, (dget_dset_ne _ _ _ _ hresar).trans
          (dget_dset_self _ _ _), rfl⟩
      · exact ⟨stAr, dget_dset_self _ _ _, rfl⟩

theorem mergeResultClassImage_frame (inputs0 : Dict) (rciV : Val) (i1 : Dict)
    (h : mergeResultClassImage inputs0 rciV = some i1) :
    ∀ k, k ∉ (["img", "text", "resolution", "aspect_ratio",
      "result_class_image"] : List String) → dget i1 k = dget inputs0 k := by
  intro k hk
  simp only [List.mem_cons, List.not_mem_nil, or_false] at hk
  push_neg at hk
  obtain ⟨hk1, hk2, hk3, hk4, hk5⟩ := hk
  unfold mergeResultClassImage at h
  cases hrd : rciV.asDict with
  | none => rw [hrd] at h; simp at h
  | some rci0 =>
  rw [hrd] at h
  simp only [Option.bind_eq_bind, Option.some_bind] at h
  cases ht : dget inputs0 "text" with
  | none => rw [ht] at h; simp at h
  | some textV =>
  rw [ht] at h
  simp only [Option.bind_eq_bind, Option.some_bind] at h
  cases hts : textV.asStrList with
  | none => rw [hts] at h; simp at h
  | some text =>
  rw [hts] at h
  simp only [Option.bind_eq_bind, Option.some_bind] at h
  cases hp1 : dpop rci0 "text" with
  | none => rw [hp1] at h; simp at h
  | some p1 =>
  rw [hp1] at h
  simp only [Option.bind_eq_bind, Option.some_bind] at h
  cases hc1 : p1.1.asStrList with
  | none => rw [hc1] at h; simp at h
  | some ctext =>
  rw [hc1] at h
  simp only [Option.bind_eq_bind, Option.some_bind] at h
  cases hgi : dget (dset inputs0 "text" (.strList (text ++ ctext))) "img" with
  | none => rw [hgi] at h; simp at h
  | some imgV =>
  rw [hgi] at h
  simp only [Option.bind_eq_bind, Option.some_bind] at h
  cases hit : imgV.asTensorList with
  | none => rw [hit] at h; simp at h
  | some img =>
  rw [hit] at h
  simp only [Option.bind_eq_bind, Option.some_bind] at h
  cases hp2 : dpop p1.2 "img" with
  | none => rw [hp2] at h; simp at h
  | some p2 =>
  rw [hp2] at h
  simp only [Option.bind_eq_bind, Option.some_bind] at h
  cases hc2 : p2.1.asTensorList with
  | none => rw [hc2] at h; simp at h
  | some cimg =>
  rw [hc2] at h
  simp only [Option.bind_eq_bind, Option.some_bind] at h
  cases h3 : appendClassTL (dset (dset inputs0 "text"
      (.strList (text ++ ctext))) "img" (.tensorList (img ++ cimg)))
      p2.2 "resolution" with
  | none => rw [h3] at h; simp at h
  | some s3 =>
  rw [h3] at h
  simp only [Option.bind_eq_bind, Option.some_bind] at h
  cases h4 : appendClassTL s3.1 s3.2 "aspect_ratio" with
  | none => rw [h4] at h; simp at h
  | some s4 =>
  rw [h4] at h
  simp only [Option.bind_eq_bind, Option.some_bind, Option.some.injEq] at h
  subst h
  rw [dget_dset_ne _ _ _ _ hk5]
  rw [(appendClassTL_frame s3.1 s3.2 s4 "aspect_ratio" h4 k hk4).1]
  rw [(appendClassTL_frame _ p2.2 s3 "resolution" h3 k hk3).1]
  rw [dget_dset_ne _ _ _ _ hk1, dget_dset_ne _ _ _ _ hk2]

theorem pafTail_frame (data inputs1 d' : Dict)
    (h : pafTail data inputs1 = some d') :
    (∀ k, k ≠ "inputs" → dget d' k = dget data k) ∧
    ∃ inputs4, dget d' "inputs" = some (.dict inputs4) ∧
      ∀ k, k ∉ (["img", "resolution", "aspect_ratio"] : List String) →
        dget inputs4 k = dget inputs1 k := by
  unfold pafTail at h
  cases hgi : dget inputs1 "img" with
  | none => rw [hgi] at h; simp at h
  | some imgV =>
  rw [hgi] at h
  simp only [Option.bind_eq_bind, Option.some_bind] at h
  cases hit : imgV.asTensorList with
  | none => rw [hit] at h; simp at h
  | some imgs =>
  rw [hit] at h
  simp only [Option.bind_eq_bind, Option.some_bind] at h
  cases hst : Tensor.stack imgs with
  | none => rw [hst] at h; simp at h
  | some st =>
  rw [hst] at h
  simp only [Option.bind_eq_bind, Option.some_bind] at h
  cases h3 : stackEntry (dset inputs1 "img" (.tensor st)) "resolution" with
  | none => rw [h3] at h; simp at h
  | some i3 =>
  rw [h3] at h
  simp only [Option.bind_eq_bind, Option.some_bind] at h
  cases h4 : stackEntry i3 "aspect_ratio" with
  | none => rw [h4] at h; simp at h
  | some i4 =>
  rw [h4] at h
  simp only [Option.bind_eq_bind, Option.some_bind, Option.some.injEq] at h
  subst h
  constructor
  · intro k hk
    exact dget_dset_ne _ _ _ _ hk
  · refine ⟨i4, dget_dset_self _ _ _, ?_⟩
    intro k hk
    simp only [List.mem_cons, List.not_mem_nil, or_false] at hk
    push_neg at hk
    obtain ⟨hk1, hk2, hk3⟩ := hk
    rw [stackEntry_frame i3 i4 "aspect_ratio" h4 k hk3]
    rw [stackEntry_frame _ i3 "resolution" h3 k hk2]
    rw [dget_dset_ne _ _ _ _ hk1]

/-- C7: `forward` only modifies the entries `img`, `text`, `resolution`,
`aspect_ratio` and `result_class_image` of `data["inputs"]`: every other key
of `data` and of `data["inputs"]` reaches the delegated base-class forward
unchanged, and the returned value is the base forward of the reshaped dict. -/
theorem pixart_forward_frame (data d' : Dict)
    (h : pafInner data = some d') :
    (∀ base : Dict → Dict, pafForward base data = some (base d')) ∧
    (∀ k, k ≠ "inputs" → dget d' k = dget data k) ∧
    (∀ inputs inputs', dget data "inputs" = some (.dict inputs) →
      dget d' "inputs" = some (.dict inputs') →
      ∀ k, k ∉ (["img", "text", "resolution", "aspect_ratio",
        "result_class_image"] : List String) →
      dget inputs' k = dget inputs k) := by
  have h0 := h
  refine ⟨fun base => by unfold pafForward; rw [h0]; rfl, ?_⟩
  unfold pafInner at h
  cases hin : dget data "inputs" with
  | none => rw [hin] at h; simp at h
  | some v =>
  rw [hin] at h
  simp only [Option.bind_eq_bind, Option.some_bind] at h
  cases hd : v.asDict with
  | none => rw [hd] at h; simp at h
  | some inputs0 =>
  rw [hd] at h
  simp only [Option.bind_eq_bind, Option.some_bind] at h
  have hkey : ∀ k, k ∉ (["img", "text", "resolution", "aspect_ratio",
      "result_class_image"] : List String) →
      k ∉ (["img", "resolution", "aspect_ratio"] : List String) := by
    intro k hk
    simp only [List.mem_cons, List.not_mem_nil, or_false] at hk ⊢
    tauto
  have hmain : ∀ inputs1 : Dict, pafTail data inputs1 = some d' →
      (∀ k, k ∉ (["img", "text", "resolution", "aspect_ratio",
        "result_class_image"] : List String) →
        dget inputs1 k = dget inputs0 k) →
      (∀ k, k ≠ "inputs" → dget d' k = dget data k) ∧
      (∀ inputs inputs', some v = some (Val.dict inputs) →
        dget d' "inputs" = some (.dict inputs') →
        ∀ k, k ∉ (["img", "text", "resolution", "aspect_ratio",
          "result_class_image"] : List String) →
        dget inputs' k = dget inputs k) := by
    intro inputs1 ht hframe1
    obtain ⟨houter, inputs4, hget4, hframe4⟩ := pafTail_frame data inputs1 d' ht
    refine ⟨houter, ?_⟩
    intro inputs inputs' hin' hout' k hk
    injection hin' with hin'
    subst hin'
    simp only [Val.asDict, Option.some.injEq] at hd
    subst hd
    rw [hget4] at hout'
    injection hout' with hout'
    injection hout' with hout'
    subst hout'
    rw [hframe4 k (hkey k hk), hframe1 k hk]
  cases hrci : dget inputs0 "result_class_image" with
  | none =>
    rw [hrci] at h
    simp only [Option.bind_eq_bind, Option.some_bind] at h
    exact hmain inputs0 h (fun k _ => rfl)
  | some rciV =>
    rw [hrci] at h
    simp only [Option.bind_eq_bind, Option.some_bind] at h
    cases hm : mergeResultClassImage inputs0 rciV with
    | none => rw [hm] at h; simp at h
    | some i1 =>
      rw [hm] at h
      simp only [Option.bind_eq_bind, Option.some_bind] at h
      exact hmain i1 h (mergeResultClassImage_frame inputs0 rciV i1 hm)

theorem pafTail_eval (data inputs1 : Dict) (imgs : List Tensor)
    (stImg : Tensor) (i3 i4 : Dict)
    (himg : dget inputs1 "img" = some (.tensorList imgs))
    (hst : Tensor.stack imgs = some stImg)
    (h3 : stackEntry (dset inputs1 "img" (.tensor stImg)) "resolution" =
      some i3)
    (h4 : stackEntry i3 "aspect_ratio" = some i4) :
    pafTail data inputs1 = some (dset data "inputs" (.dict i4)) := by
  unfold pafTail
  rw [himg]
  simp only [Val.asTensorList, Option.bind_eq_bind, Option.some_bind]
  rw [hst]
  simp only [Option.bind_eq_bind, Option.some_bind]
  rw [h3]
  simp only [Option.bind_eq_bind, Option.some_bind]
  rw [h4]
  simp only [Option.bind_eq_bind, Option.some_bind]

theorem pafTail_spec (data inputs1 : Dict) (t0 : Tensor)
    (rest : List Tensor) (resv arv : Option (Tensor × List Tensor))
    (himg : dget inputs1 "img" = some (.tensorList (t0 :: rest)))
    (hsh : ∀ u ∈ rest, u.shape = t0.shape)
    (hres : match resv with
      | none => dget inputs1 "resolution" = none
      | some (r0, rs) =>
        dget inputs1 "resolution" = some (.tensorList (r0 :: rs)) ∧
        ∀ u ∈ rs, u.shape = r0.shape)
    (har : match arv with
      | none => dget inputs1 "aspect_ratio" = none
      | some (a0, as0) =>
        dget inputs1 "aspect_ratio" = some (.tensorList (a0 :: as0)) ∧
        ∀ u ∈ as0, u.shape = a0.shape) :
    ∃ inputs4 : Dict,
      pafTail data inputs1 = some (dset data "inputs" (.dict inputs4)) ∧
      dget inputs4 "img" = (Tensor.stack (t0 :: rest)).map Val.tensor ∧
      (match resv with
        | none => dget inputs4 "resolution" = none
        | some (r0, rs) => dget inputs4 "resolution" =
            (Tensor.stack (r0 :: rs)).map Val.tensor) ∧
      (match arv with
        | none => dget inputs4 "aspect_ratio" = none
        | some (a0, as0) => dget inputs4 "aspect_ratio" =
            (Tensor.stack (a0 :: as0)).map Val.tensor) ∧
      (∀ k, k ∉ (["img", "resolution", "aspect_ratio"] : List String) →
        dget inputs4 k = dget inputs1 k) := by
  have hstack := tensor_stack_cons t0 rest hsh
  set stImg : Tensor := ⟨(t0 :: rest).length :: t0.shape,
    ((t0 :: rest).map Tensor.data).flatten⟩ with hstImg
  set inputs2 := dset inputs1 "img" (.tensor stImg) with hinputs2
  have hrne : ("resolution" : String) ≠ "img" := by decide
  have harne : ("aspect_ratio" : String) ≠ "img" := by decide
  have harres : ("aspect_ratio" : String) ≠ "resolution" := by decide
  have hresar : ("resolution" : String) ≠ "aspect_ratio" := by decide
  have himgne : ("img" : String) ≠ "resolution" := by decide
  have himgnar : ("img" : String) ≠ "aspect_ratio" := by decide
  have hres2 : dget inputs2 "resolution" = dget inputs1 "resolution" :=
    dget_dset_ne _ _ _ _ hrne
  have har2 : dget inputs2 "aspect_ratio" = dget inputs1 "aspect_ratio" :=
    dget_dset_ne _ _ _ _ harne
  have hframe2 : ∀ k, k ∉ (["img", "resolution", "aspect_ratio"] :
      List String) → dget inputs2 k = dget inputs1 k := by
    intro k hk
    simp only [List.mem_cons, List.not_mem_nil, or_false] at hk
    push_neg at hk
    exact dget_dset_ne _ _ _ _ hk.1
  rcases resv with _ | ⟨r0, rs⟩
  · have h3 : stackEntry inputs2 "resolution" = some inputs2 :=
      stackEntry_none _ _ (hres2.trans hres)
    rcases arv with _ | ⟨a0, as0⟩
    · have h4 : stackEntry inputs2 "aspect_ratio" = some inputs2 :=
        stackEntry_none _ _ (har2.trans har)
      refine ⟨inputs2, pafTail_eval data inputs1 (t0 :: rest) stImg
        inputs2 inputs2 himg hstack h3 h4, ?_, ?_, ?_, hframe2⟩
      · rw [hstack]
        exact dget_dset_self _ _ _
      · exact hres2.trans hres
      · exact har2.trans har
    · obtain ⟨har1, harsh⟩ := har
      have hga : dget inputs2 "aspect_ratio" =
          some (.tensorList (a0 :: as0)) := har2.trans har1
      have h4 := stackEntry_some inputs2 "aspect_ratio" a0 as0 hga harsh
      set stAr : Tensor := ⟨(a0 :: as0).length :: a0.shape,
        ((a0 :: as0).map Tensor.data).flatten⟩ with hstAr
      set i4 := dset inputs2 "aspect_ratio" (.tensor stAr) with hi4
      refine ⟨i4, pafTail_eval data inputs1 (t0 :: rest) stImg
        inputs2 i4 himg hstack h3 h4, ?_, ?_, ?_, ?_⟩
      · rw [hstack]
        exact (dget_dset_ne _ _ _ _ himgnar).trans (dget_dset_self _ _ _)
      · exact (dget_dset_ne _ _ _ _ hresar).trans (hres2.trans hres)
      · show dget i4 "aspect_ratio" = (Tensor.stack (a0 :: as0)).map Val.tensor
        rw [tensor_stack_cons a0 as0 harsh]
        exact dget_dset_self _ _ _
      · intro k hk
        have hk' := hk
        simp only [List.mem_cons, List.not_mem_nil, or_false] at hk'
        push_neg at hk'
        exact (dget_dset_ne _ _ _ _ hk'.2.2).trans (hframe2 k hk)
  · obtain ⟨hres1, hressh⟩ := hres
    have hgr : dget inputs2 "resolution" = some (.tensorList (r0 :: rs)) :=
      hres2.trans hres1
    have h3 := stackEntry_some inputs2 "resolution" r0 rs hgr hressh
    set stRes : Tensor := ⟨(r0 :: rs).length :: r0.shape,
      ((r0 :: rs).map Tensor.data).flatten⟩ with hstRes
    set i3 := dset inputs2 "resolution" (.tensor stRes) with hi3
    have har3 : dget i3 "aspect_ratio" = dget inputs1 "aspect_ratio" :=
      (dget_dset_ne _ _ _ _ harres).trans har2
    rcases arv with _ | ⟨a0, as0⟩
    · have h4 : stackEntry i3 "aspect_ratio" = some i3 :=
        stackEntry_none _ _ (har3.trans har)
      refine ⟨i3, pafTail_eval data inputs1 (t0 :: rest) stImg
        i3 i3 himg hstack h3 h4, ?_, ?_, ?_, ?_⟩
      · rw [hstack]
        exact (dget_dset_ne _ _ _ _ himgne).trans (dget_dset_self _ _ _)
      · show dget i3 "resolution" = (Tensor.stack (r0 :: rs)).map Val.tensor
        rw [tensor_stack_cons r0 rs hressh]
        exact dget_dset_self _ _ _
      · exact har3.trans har
      · intro k hk
        have hk' := hk
        simp only [List.mem_cons, List.not_mem_nil, or_false] at hk'
        push_neg at hk'
        exact (dget_dset_ne _ _ _ _ hk'.2.1).trans (hframe2 k hk)
    · obtain ⟨har1, harsh⟩ := har
      have hga : dget i3 "aspect_ratio" = some (.tensorList (a0 :: as0)) :=
        har3.trans har1
      have h4 := stackEntry_some i3 "aspect_ratio" a0 as0 hga harsh
      set stAr : Tensor := ⟨(a0 :: as0).length :: a0.shape,
        ((a0 :: as0).map Tensor.data).flatten⟩ with hstAr
      set i4 := dset i3 "aspect_ratio" (.tensor stAr) with hi4
      refine ⟨i4, pafTail_eval data inputs1 (t0 :: rest) stImg
        i3 i4 himg hstack h3 h4, ?_, ?_, ?_, ?_⟩
      · rw [hstack]
        exact ((dget_dset_ne _ _ _ _ himgnar).trans
          ((dget_dset_ne _ _ _ _ himgne).trans (dget_dset_self _ _ _)))
      · show dget i4 "resolution" = (Tensor.stack (r0 :: rs)).map Val.tensor
        rw [tensor_stack_cons r0 rs hressh]
        exact (dget_dset_ne _ _ _ _ hresar).trans (dget_dset_self _ _ _)
      · show dget i4 "aspect_ratio" = (Tensor.stack (a0 :: as0)).map Val.tensor
        rw [tensor_stack_cons a0 as0 harsh]
        exact dget_dset_self _ _ _
      · intro k hk
        have hk' := hk
        simp only [List.mem_cons, List.not_mem_nil, or_false] at hk'
        push_neg at hk'
        exact (dget_dset_ne _ _ _ _ hk'.2.2).trans
          ((dget_dset_ne _ _ _ _ hk'.2.1).trans (hframe2 k hk))

theorem mergeResultClassImage_eval (inputs rci : Dict)
    (text ctext : List String) (rci1 : Dict)
    (imgs cimgs : List Tensor) (rci2 : Dict) (s3 s4 : Dict × Dict)
    (htext : dget inputs "text" = some (.strList text))
    (hp1 : dpop rci "text" = some (.strList ctext, rci1))
    (himg : dget (dset inputs "text" (.strList (text ++ ctext))) "img" =
      some (.tensorList imgs))
    (hp2 : dpop rci1 "img" = some (.tensorList cimgs, rci2))
    (h3 : appendClassTL (dset (dset inputs "text"
      (.strList (text ++ ctext))) "img" (.tensorList (imgs ++ cimgs)))
      rci2 "resolution" = some s3)
    (h4 : appendClassTL s3.1 s3.2 "aspect_ratio" = some s4) :
    mergeResultClassImage inputs (.dict rci) =
      some (dset s4.1 "result_class_image" (.dict s4.2)) := by
  unfold mergeResultClassImage
  simp only [Val.asDict, Option.bind_eq_bind, Option.some_bind]
  rw [htext]
  simp only [Val.asStrList, Option.bind_eq_bind, Option.some_bind]
  rw [hp1]
  simp only [Val.asStrList, Option.bind_eq_bind, Option.some_bind]
  rw [himg]
  simp only [Val.asTensorList, Option.bind_eq_bind, Option.some_bind]
  rw [hp2]
  simp only [Val.asTensorList, Option.bind_eq_bind, Option.some_bind]
  rw [h3]
  simp only [Option.bind_eq_bind, Option.some_bind]
  rw [h4]
  simp only [Option.bind_eq_bind, Option.some_bind]

theorem pafInner_to_tail (data inputs : Dict) (rciV : Val) (i1 : Dict)
    (hin : dget data "inputs" = some (.dict inputs))
    (hrciv : dget inputs "result_class_image" = some rciV)
    (hm : mergeResultClassImage inputs rciV = some i1) :
    pafInner data = pafTail data i1 := by
  unfold pafInner
  rw [hin]
  simp only [Option.bind_eq_bind, Option.some_bind, Val.asDict]
  rw [hrciv]
  simp only [Option.bind_eq_bind, Option.some_bind]
  rw [hm]
  simp only [Option.bind_eq_bind, Option.some_bind]

set_option maxHeartbeats 2000000 in
/-- C2: when `result_class_image` is present (with well-typed, stackable
entries), `forward` appends the class image's `text` and `img` lists onto the
instance lists, appends `resolution`/`aspect_ratio` whenever those keys are
present in the inputs, pops each appended entry from the `result_class_image`
sub-dict, and the stacked batch is the stack of the instance examples followed
by the class examples in order. -/
theorem pixart_forward_class_image (base : Dict → Dict)
    (data inputs rci : Dict) (text ctext : List String)
    (imgs cimgs : List Tensor) (shp shpr shpa : List Nat)
    (resv arv : Option (List Tensor × List Tensor))
    (hin : dget data "inputs" = some (.dict inputs))
    (hrciv : dget inputs "result_class_image" = some (.dict rci))
    (htext : dget inputs "text" = some (.strList text))
    (hctext : dget rci "text" = some (.strList ctext))
    (himg : dget inputs "img" = some (.tensorList imgs))
    (hcimg : dget rci "img" = some (.tensorList cimgs))
    (himgne : imgs ≠ [])
    (hshape : ∀ u ∈ imgs ++ cimgs, u.shape = shp)
    (hres : match resv with
      | none => dget inputs "resolution" = none
      | some (res, cres) =>
        dget inputs "resolution" = some (.tensorList res) ∧
        dget rci "resolution" = some (.tensorList cres) ∧
        res ≠ [] ∧ ∀ u ∈ res ++ cres, u.shape = shpr)
    (har : match arv with
      | none => dget inputs "aspect_ratio" = none
      | some (ar, car) =>
        dget inputs "aspect_ratio" = some (.tensorList ar) ∧
        dget rci "aspect_ratio" = some (.tensorList car) ∧
        ar ≠ [] ∧ ∀ u ∈ ar ++ car, u.shape = shpa) :
    ∃ inputs4 rciF : Dict,
      pafForward base data =
        some (base (dset data "inputs" (.dict inputs4))) ∧
      dget inputs4 "text" = some (.strList (text ++ ctext)) ∧
      dget inputs4 "img" = (Tensor.stack (imgs ++ cimgs)).map Val.tensor ∧
      dget inputs4 "result_class_image" = some (.dict rciF) ∧
      dget rciF "text" = none ∧ dget rciF "img" = none ∧
      (match resv with
        | none => dget inputs4 "resolution" = none ∧
            dget rciF "resolution" = dget rci "resolution"
        | some (res, cres) =>
            dget inputs4 "resolution" =
              (Tensor.stack (res ++ cres)).map Val.tensor ∧
            dget rciF "resolution" = none) ∧
      (match arv with
        | none => dget inputs4 "aspect_ratio" = none ∧
            dget rciF "aspect_ratio" = dget rci "aspect_ratio"
        | some (ar, car) =>
            dget inputs4 "aspect_ratio" =
              (Tensor.stack (ar ++ car)).map Val.tensor ∧
            dget rciF "aspect_ratio" = none) := by
  have ne1 : ("img" : String) ≠ "text" := by decide
  have ne2 : ("resolution" : String) ≠ "text" := by decide
  have ne3 : ("resolution" : String) ≠ "img" := by decide
  have ne4 : ("aspect_ratio" : String) ≠ "text" := by decide
  have ne5 : ("aspect_ratio" : String) ≠ "img" := by decide
  have ne6 : ("aspect_ratio" : String) ≠ "resolution" := by decide
  have ne7 : ("text" : String) ≠ "img" := by decide
  have ne8 : ("text" : String) ≠ "resolution" := by decide
  have ne9 : ("text" : String) ≠ "aspect_ratio" := by decide
  have ne10 : ("text" : String) ≠ "result_class_image" := by decide
  have ne11 : ("img" : String) ≠ "result_class_image" := by decide
  have ne12 : ("resolution" : String) ≠ "result_class_image" := by decide
  have ne13 : ("aspect_ratio" : String) ≠ "result_class_image" := by decide
  have ne14 : ("img" : String) ≠ "resolution" := by decide
  have ne15 : ("img" : String) ≠ "aspect_ratio" := by decide
  have ne17 : ("resolution" : String) ≠ "aspect_ratio" := by decide
  have hp1 : dpop rci "text" = some (.strList ctext, rci.filter (fun p => !(p.1 == "text"))) :=
    dpop_eval rci "text" _ hctext
  have himgI1 : dget (dset inputs "text" (Val.strList (text ++ ctext))) "img" = some (.tensorList imgs) :=
    (dget_dset_ne inputs "text" "img" _ ne1).trans himg
  have hR1img : dget (rci.filter (fun p => !(p.1 == "text"))) "img" = some (.tensorList cimgs) :=
    (dget_filter_ne rci "text" "img" ne1).trans hcimg
  have hp2 : dpop (rci.filter (fun p => !(p.1 == "text"))) "img" = some (.tensorList cimgs, (rci.filter (fun p => !(p.1 == "text"))).filter (fun p => !(p.1 == "img"))) :=
    dpop_eval (rci.filter (fun p => !(p.1 == "text"))) "img" _ hR1img
  have htextI2 : dget (dset (dset inputs "text" (Val.strList (text ++ ctext))) "img" (Val.tensorList (imgs ++ cimgs))) "text" = some (.strList (text ++ ctext)) :=
    (dget_dset_ne (dset inputs "text" (Val.strList (text ++ ctext))) "img" "text" _ ne7).trans
      (dget_dset_self inputs "text" _)
  have himgI2 : dget (dset (dset inputs "text" (Val.strList (text ++ ctext))) "img" (Val.tensorList (imgs ++ cimgs))) "img" = some (.tensorList (imgs ++ cimgs)) :=
    dget_dset_self (dset inputs "text" (Val.strList (text ++ ctext))) "img" _
  have hresI2 : dget (dset (dset inputs "text" (Val.strList (text ++ ctext))) "img" (Val.tensorList (imgs ++ cimgs))) "resolution" = dget inputs "resolution" :=
    (dget_dset_ne (dset inputs "text" (Val.strList (text ++ ctext))) "img" "resolution" _ ne3).trans
      (dget_dset_ne inputs "text" "resolution" _ ne2)
  have harI2 : dget (dset (dset inputs "text" (Val.strList (text ++ ctext))) "img" (Val.tensorList (imgs ++ cimgs))) "aspect_ratio" = dget inputs "aspect_ratio" :=
    (dget_dset_ne (dset inputs "text" (Val.strList (text ++ ctext))) "img" "aspect_ratio" _ ne5).trans
      (dget_dset_ne inputs "text" "aspect_ratio" _ ne4)
  have htextR2 : dget ((rci.filter (fun p => !(p.1 == "text"))).filter (fun p => !(p.1 == "img"))) "text" = none :=
    (dget_filter_ne (rci.filter (fun p => !(p.1 == "text"))) "img" "text" ne7).trans
      (dget_filter_self rci "text")
  have himgR2 : dget ((rci.filter (fun p => !(p.1 == "text"))).filter (fun p => !(p.1 == "img"))) "img" = none := dget_filter_self (rci.filter (fun p => !(p.1 == "text"))) "img"
  have hresR2 : dget ((rci.filter (fun p => !(p.1 == "text"))).filter (fun p => !(p.1 == "img"))) "resolution" = dget rci "resolution" :=
    (dget_filter_ne (rci.filter (fun p => !(p.1 == "text"))) "img" "resolution" ne3).trans
      (dget_filter_ne rci "text" "resolution" ne2)
  have harR2 : dget ((rci.filter (fun p => !(p.1 == "text"))).filter (fun p => !(p.1 == "img"))) "aspect_ratio" = dget rci "aspect_ratio" :=
    (dget_filter_ne (rci.filter (fun p => !(p.1 == "text"))) "img" "aspect_ratio" ne5).trans
      (dget_filter_ne rci "text" "aspect_ratio" ne4)
  obtain ⟨t0, irest, himgsEq⟩ : ∃ u l, imgs = u :: l := by
    cases imgs with
    | nil => exact absurd rfl himgne
    | cons a l => exact ⟨a, l, rfl⟩
  have hshT : ∀ u ∈ irest ++ cimgs, u.shape = t0.shape := by
    intro u hu
    have hmem : u ∈ imgs ++ cimgs := by
      rw [himgsEq, List.cons_append]
      exact List.mem_cons_of_mem t0 hu
    have hmem0 : t0 ∈ imgs ++ cimgs := by
      rw [himgsEq, List.cons_append]
      exact List.mem_cons_self t0 _
    exact (hshape u hmem).trans (hshape t0 hmem0).symm
  rcases resv with _ | ⟨res, cres⟩
  · rcases arv with _ | ⟨ar, car⟩
    · have h3 : appendClassTL (dset (dset inputs "text" (Val.strList (text ++ ctext))) "img" (Val.tensorList (imgs ++ cimgs))) ((rci.filter (fun p => !(p.1 == "text"))).filter (fun p => !(p.1 == "img"))) "resolution" = some ((dset (dset inputs "text" (Val.strList (text ++ ctext))) "img" (Val.tensorList (imgs ++ cimgs))), ((rci.filter (fun p => !(p.1 == "text"))).filter (fun p => !(p.1 == "img")))) :=
        appendClassTL_none (dset (dset inputs "text" (Val.strList (text ++ ctext))) "img" (Val.tensorList (imgs ++ cimgs))) ((rci.filter (fun p => !(p.1 == "text"))).filter (fun p => !(p.1 == "img"))) "resolution" (hresI2.trans hres)
      have htextS3 := htextI2
      have himgS3 := himgI2
      have hresS3 : dget (dset (dset inputs "text" (Val.strList (text ++ ctext))) "img" (Val.tensorList (imgs ++ cimgs))) "resolution" = none := hresI2.trans hres
      have harS3 := harI2
      have htextS3r := htextR2
      have himgS3r := himgR2
      have hresS3r : dget ((rci.filter (fun p => !(p.1 == "text"))).filter (fun p => !(p.1 == "img"))) "resolution" = dget rci "resolution" := hresR2
      have harS3r := harR2
      have h4 : appendClassTL (dset (dset inputs "text" (Val.strList (text ++ ctext))) "img" (Val.tensorList (imgs ++ cimgs))) ((rci.filter (fun p => !(p.1 == "text"))).filter (fun p => !(p.1 == "img"))) "aspect_ratio" = some ((dset (dset inputs "text" (Val.strList (text ++ ctext))) "img" (Val.tensorList (imgs ++ cimgs))), ((rci.filter (fun p => !(p.1 == "text"))).filter (fun p => !(p.1 == "img")))) :=
        appendClassTL_none (dset (dset inputs "text" (Val.strList (text ++ ctext))) "img" (Val.tensorList (imgs ++ cimgs))) ((rci.filter (fun p => !(p.1 == "text"))).filter (fun p => !(p.1 == "img"))) "aspect_ratio" (harS3.trans har)
      have htextS4 := htextS3
      have himgS4 := himgS3
      have hresS4 := hresS3
      have harS4 : dget (dset (dset inputs "text" (Val.strList (text ++ ctext))) "img" (Val.tensorList (imgs ++ cimgs))) "aspect_ratio" = none := harS3.trans har
      have htextS4r := htextS3r
      have himgS4r := himgS3r
      have hresS4r := hresS3r
      have harS4r : dget ((rci.filter (fun p => !(p.1 == "text"))).filter (fun p => !(p.1 == "img"))) "aspect_ratio" = dget rci "aspect_ratio" := harS3r
      have hm : mergeResultClassImage inputs (.dict rci) = some (dset (dset (dset inputs "text" (Val.strList (text ++ ctext))) "img" (Val.tensorList (imgs ++ cimgs))) "result_class_image" (Val.dict ((rci.filter (fun p => !(p.1 == "text"))).filter (fun p => !(p.1 == "img"))))) :=
        mergeResultClassImage_eval inputs rci text ctext (rci.filter (fun p => !(p.1 == "text"))) imgs cimgs ((rci.filter (fun p => !(p.1 == "text"))).filter (fun p => !(p.1 == "img"))) ((dset (dset inputs "text" (Val.strList (text ++ ctext))) "img" (Val.tensorList (imgs ++ cimgs))), ((rci.filter (fun p => !(p.1 == "text"))).filter (fun p => !(p.1 == "img")))) ((dset (dset inputs "text" (Val.strList (text ++ ctext))) "img" (Val.tensorList (imgs ++ cimgs))), ((rci.filter (fun p => !(p.1 == "text"))).filter (fun p => !(p.1 == "img")))) htext hp1 himgI1 hp2 h3 h4
      have heval := pafInner_to_tail data inputs (.dict rci) _ hin hrciv hm
      have himgT : dget (dset (dset (dset inputs "text" (Val.strList (text ++ ctext))) "img" (Val.tensorList (imgs ++ cimgs))) "result_class_image" (Val.dict ((rci.filter (fun p => !(p.1 == "text"))).filter (fun p => !(p.1 == "img"))))) "img" = some (.tensorList (t0 :: (irest ++ cimgs))) := by
        rw [← List.cons_append, ← himgsEq]
        exact (dget_dset_ne (dset (dset inputs "text" (Val.strList (text ++ ctext))) "img" (Val.tensorList (imgs ++ cimgs))) "result_class_image" "img" _ ne11).trans himgS4
      have hresT : dget (dset (dset (dset inputs "text" (Val.strList (text ++ ctext))) "img" (Val.tensorList (imgs ++ cimgs))) "result_class_image" (Val.dict ((rci.filter (fun p => !(p.1 == "text"))).filter (fun p => !(p.1 == "img"))))) "resolution" = none := (dget_dset_ne (dset (dset inputs "text" (Val.strList (text ++ ctext))) "img" (Val.tensorList (imgs ++ cimgs))) "result_class_image" "resolution" _ ne12).trans hresS4
      have harT : dget (dset (dset (dset inputs "text" (Val.strList (text ++ ctext))) "img" (Val.tensorList (imgs ++ cimgs))) "result_class_image" (Val.dict ((rci.filter (fun p => !(p.1 == "text"))).filter (fun p => !(p.1 == "img"))))) "aspect_ratio" = none := (dget_dset_ne (dset (dset inputs "text" (Val.strList (text ++ ctext))) "img" (Val.tensorList (imgs ++ cimgs))) "result_class_image" "aspect_ratio" _ ne13).trans harS4
      obtain ⟨inputs4, htail, himgF, hresF, harF, hframeF⟩ :=
        pafTail_spec data (dset (dset (dset inputs "text" (Val.strList (text ++ ctext))) "img" (Val.tensorList (imgs ++ cimgs))) "result_class_image" (Val.dict ((rci.filter (fun p => !(p.1 == "text"))).filter (fun p => !(p.1 == "img"))))) t0 (irest ++ cimgs) (none) (none) himgT hshT hresT harT
      refine ⟨inputs4, ((rci.filter (fun p => !(p.1 == "text"))).filter (fun p => !(p.1 == "img"))), ?_, ?_, ?_, ?_, htextS4r, himgS4r, ?_, ?_⟩
      · unfold pafForward
        rw [heval, htail]
        rfl
      · rw [hframeF "text" (by decide)]
        exact (dget_dset_ne (dset (dset inputs "text" (Val.strList (text ++ ctext))) "img" (Val.tensorList (imgs ++ cimgs))) "result_class_image" "text" _ ne10).trans htextS4
      · rw [himgsEq, List.cons_append]
        exact himgF
      · rw [hframeF "result_class_image" (by decide)]
        exact dget_dset_self (dset (dset inputs "text" (Val.strList (text ++ ctext))) "img" (Val.tensorList (imgs ++ cimgs))) "result_class_image" _
      · exact ⟨hresF, hresS4r⟩
      · exact ⟨harF, harS4r⟩
    · have h3 : appendClassTL (dset (dset inputs "text" (Val.strList (text ++ ctext))) "img" (Val.tensorList (imgs ++ cimgs))) ((rci.filter (fun p => !(p.1 == "text"))).filter (fun p => !(p.1 == "img"))) "resolution" = some ((dset (dset inputs "text" (Val.strList (text ++ ctext))) "img" (Val.tensorList (imgs ++ cimgs))), ((rci.filter (fun p => !(p.1 == "text"))).filter (fun p => !(p.1 == "img")))) :=
        appendClassTL_none (dset (dset inputs "text" (Val.strList (text ++ ctext))) "img" (Val.tensorList (imgs ++ cimgs))) ((rci.filter (fun p => !(p.1 == "text"))).filter (fun p => !(p.1 == "img"))) "resolution" (hresI2.trans hres)
      have htextS3 := htextI2
      have himgS3 := himgI2
      have hresS3 : dget (dset (dset inputs "text" (Val.strList (text ++ ctext))) "img" (Val.tensorList (imgs ++ cimgs))) "resolution" = none := hresI2.trans hres
      have harS3 := harI2
      have htextS3r := htextR2
      have himgS3r := himgR2
      have hresS3r : dget ((rci.filter (fun p => !(p.1 == "text"))).filter (fun p => !(p.1 == "img"))) "resolution" = dget rci "resolution" := hresR2
      have harS3r := harR2
      obtain ⟨har1, har2c, harne, harshape⟩ := har
      obtain ⟨a0, arest, harEq⟩ : ∃ u l, ar = u :: l := by
        cases ar with
        | nil => exact absurd rfl harne
        | cons a l => exact ⟨a, l, rfl⟩
      have h4 : appendClassTL (dset (dset inputs "text" (Val.strList (text ++ ctext))) "img" (Val.tensorList (imgs ++ cimgs))) ((rci.filter (fun p => !(p.1 == "text"))).filter (fun p => !(p.1 == "img"))) "aspect_ratio" = some ((dset (dset (dset inputs "text" (Val.strList (text ++ ctext))) "img" (Val.tensorList (imgs ++ cimgs))) "aspect_ratio" (Val.tensorList (ar ++ car))), (((rci.filter (fun p => !(p.1 == "text"))).filter (fun p => !(p.1 == "img"))).filter (fun p => !(p.1 == "aspect_ratio")))) :=
        appendClassTL_some (dset (dset inputs "text" (Val.strList (text ++ ctext))) "img" (Val.tensorList (imgs ++ cimgs))) ((rci.filter (fun p => !(p.1 == "text"))).filter (fun p => !(p.1 == "img"))) "aspect_ratio" ar car (harS3.trans har1) (harS3r.trans har2c)
      have htextS4 : dget (dset (dset (dset inputs "text" (Val.strList (text ++ ctext))) "img" (Val.tensorList (imgs ++ cimgs))) "aspect_ratio" (Val.tensorList (ar ++ car))) "text" = some (.strList (text ++ ctext)) := (dget_dset_ne (dset (dset inputs "text" (Val.strList (text ++ ctext))) "img" (Val.tensorList (imgs ++ cimgs))) "aspect_ratio" "text" _ ne9).trans htextS3
      have himgS4 : dget (dset (dset (dset inputs "text" (Val.strList (text ++ ctext))) "img" (Val.tensorList (imgs ++ cimgs))) "aspect_ratio" (Val.tensorList (ar ++ car))) "img" = some (.tensorList (imgs ++ cimgs)) := (dget_dset_ne (dset (dset inputs "text" (Val.strList (text ++ ctext))) "img" (Val.tensorList (imgs ++ cimgs))) "aspect_ratio" "img" _ ne15).trans himgS3
      have hresS4 : dget (dset (dset (dset inputs "text" (Val.strList (text ++ ctext))) "img" (Val.tensorList (imgs ++ cimgs))) "aspect_ratio" (Val.tensorList (ar ++ car))) "resolution" = none := (dget_dset_ne (dset (dset inputs "text" (Val.strList (text ++ ctext))) "img" (Val.tensorList (imgs ++ cimgs))) "aspect_ratio" "resolution" _ ne17).trans hresS3
      have harS4 : dget (dset (dset (dset inputs "text" (Val.strList (text ++ ctext))) "img" (Val.tensorList (imgs ++ cimgs))) "aspect_ratio" (Val.tensorList (ar ++ car))) "aspect_ratio" = some (.tensorList (ar ++ car)) := dget_dset_self (dset (dset inputs "text" (Val.strList (text ++ ctext))) "img" (Val.tensorList (imgs ++ cimgs))) "aspect_ratio" _
      have htextS4r : dget (((rci.filter (fun p => !(p.1 == "text"))).filter (fun p => !(p.1 == "img"))).filter (fun p => !(p.1 == "aspect_ratio"))) "text" = none := (dget_filter_ne ((rci.filter (fun p => !(p.1 == "text"))).filter (fun p => !(p.1 == "img"))) "aspect_ratio" "text" ne9).trans htextS3r
      have himgS4r : dget (((rci.filter (fun p => !(p.1 == "text"))).filter (fun p => !(p.1 == "img"))).filter (fun p => !(p.1 == "aspect_ratio"))) "img" = none := (dget_filter_ne ((rci.filter (fun p => !(p.1 == "text"))).filter (fun p => !(p.1 == "img"))) "aspect_ratio" "img" ne15).trans himgS3r
      have hresS4r : dget (((rci.filter (fun p => !(p.1 == "text"))).filter (fun p => !(p.1 == "img"))).filter (fun p => !(p.1 == "aspect_ratio"))) "resolution" = dget rci "resolution" := (dget_filter_ne ((rci.filter (fun p => !(p.1 == "text"))).filter (fun p => !(p.1 == "img"))) "aspect_ratio" "resolution" ne17).trans hresS3r
      have harS4r : dget (((rci.filter (fun p => !(p.1 == "text"))).filter (fun p => !(p.1 == "img"))).filter (fun p => !(p.1 == "aspect_ratio"))) "aspect_ratio" = none := dget_filter_self ((rci.filter (fun p => !(p.1 == "text"))).filter (fun p => !(p.1 == "img"))) "aspect_ratio"
      have hm : mergeResultClassImage inputs (.dict rci) = some (dset (dset (dset (dset inputs "text" (Val.strList (text ++ ctext))) "img" (Val.tensorList (imgs ++ cimgs))) "aspect_ratio" (Val.tensorList (ar ++ car))) "result_class_image" (Val.dict (((rci.filter (fun p => !(p.1 == "text"))).filter (fun p => !(p.1 == "img"))).filter (fun p => !(p.1 == "aspect_ratio"))))) :=
        mergeResultClassImage_eval inputs rci text ctext (rci.filter (fun p => !(p.1 == "text"))) imgs cimgs ((rci.filter (fun p => !(p.1 == "text"))).filter (fun p => !(p.1 == "img"))) ((dset (dset inputs "text" (Val.strList (text ++ ctext))) "img" (Val.tensorList (imgs ++ cimgs))), ((rci.filter (fun p => !(p.1 == "text"))).filter (fun p => !(p.1 == "img")))) ((dset (dset (dset inputs "text" (Val.strList (text ++ ctext))) "img" (Val.tensorList (imgs ++ cimgs))) "aspect_ratio" (Val.tensorList (ar ++ car))), (((rci.filter (fun p => !(p.1 == "text"))).filter (fun p => !(p.1 == "img"))).filter (fun p => !(p.1 == "aspect_ratio")))) htext hp1 himgI1 hp2 h3 h4
      have heval := pafInner_to_tail data inputs (.dict rci) _ hin hrciv hm
      have himgT : dget (dset (dset (dset (dset inputs "text" (Val.strList (text ++ ctext))) "img" (Val.tensorList (imgs ++ cimgs))) "aspect_ratio" (Val.tensorList (ar ++ car))) "result_class_image" (Val.dict (((rci.filter (fun p => !(p.1 == "text"))).filter (fun p => !(p.1 == "img"))).filter (fun p => !(p.1 == "aspect_ratio"))))) "img" = some (.tensorList (t0 :: (irest ++ cimgs))) := by
        rw [← List.cons_append, ← himgsEq]
        exact (dget_dset_ne (dset (dset (dset inputs "text" (Val.strList (text ++ ctext))) "img" (Val.tensorList (imgs ++ cimgs))) "aspect_ratio" (Val.tensorList (ar ++ car))) "result_class_image" "img" _ ne11).trans himgS4
      have hresT : dget (dset (dset (dset (dset inputs "text" (Val.strList (text ++ ctext))) "img" (Val.tensorList (imgs ++ cimgs))) "aspect_ratio" (Val.tensorList (ar ++ car))) "result_class_image" (Val.dict (((rci.filter (fun p => !(p.1 == "text"))).filter (fun p => !(p.1 == "img"))).filter (fun p => !(p.1 == "aspect_ratio"))))) "resolution" = none := (dget_dset_ne (dset (dset (dset inputs "text" (Val.strList (text ++ ctext))) "img" (Val.tensorList (imgs ++ cimgs))) "aspect_ratio" (Val.tensorList (ar ++ car))) "result_class_image" "resolution" _ ne12).trans hresS4
      have harshT : ∀ u ∈ arest ++ car, u.shape = a0.shape := by
        intro u hu
        have hmem : u ∈ ar ++ car := by
          rw [harEq, List.cons_append]
          exact List.mem_cons_of_mem a0 hu
        have hmem0 : a0 ∈ ar ++ car := by
          rw [harEq, List.cons_append]
          exact List.mem_cons_self a0 _
        exact (harshape u hmem).trans (harshape a0 hmem0).symm
      have harT : dget (dset (dset (dset (dset inputs "text" (Val.strList (text ++ ctext))) "img" (Val.tensorList (imgs ++ cimgs))) "aspect_ratio" (Val.tensorList (ar ++ car))) "result_class_image" (Val.dict (((rci.filter (fun p => !(p.1 == "text"))).filter (fun p => !(p.1 == "img"))).filter (fun p => !(p.1 == "aspect_ratio"))))) "aspect_ratio" = some (.tensorList (a0 :: (arest ++ car))) := by
        rw [← List.cons_append, ← harEq]
        exact (dget_dset_ne (dset (dset (dset inputs "text" (Val.strList (text ++ ctext))) "img" (Val.tensorList (imgs ++ cimgs))) "aspect_ratio" (Val.tensorList (ar ++ car))) "result_class_image" "aspect_ratio" _ ne13).trans harS4
      obtain ⟨inputs4, htail, himgF, hresF, harF, hframeF⟩ :=
        pafTail_spec data (dset (dset (dset (dset inputs "text" (Val.strList (text ++ ctext))) "img" (Val.tensorList (imgs ++ cimgs))) "aspect_ratio" (Val.tensorList (ar ++ car))) "result_class_image" (Val.dict (((rci.filter (fun p => !(p.1 == "text"))).filter (fun p => !(p.1 == "img"))).filter (fun p => !(p.1 == "aspect_ratio"))))) t0 (irest ++ cimgs) (none) (some (a0, arest ++ car)) himgT hshT hresT ⟨harT, harshT⟩
      refine ⟨inputs4, (((rci.filter (fun p => !(p.1 == "text"))).filter (fun p => !(p.1 == "img"))).filter (fun p => !(p.1 == "aspect_ratio"))), ?_, ?_, ?_, ?_, htextS4r, himgS4r, ?_, ?_⟩
      · unfold pafForward
        rw [heval, htail]
        rfl
      · rw [hframeF "text" (by decide)]
        exact (dget_dset_ne (dset (dset (dset inputs "text" (Val.strList (text ++ ctext))) "img" (Val.tensorList (imgs ++ cimgs))) "aspect_ratio" (Val.tensorList (ar ++ car))) "result_class_image" "text" _ ne10).trans htextS4
      · rw [himgsEq, List.cons_append]
        exact himgF
      · rw [hframeF "result_class_image" (by decide)]
        exact dget_dset_self (dset (dset (dset inputs "text" (Val.strList (text ++ ctext))) "img" (Val.tensorList (imgs ++ cimgs))) "aspect_ratio" (Val.tensorList (ar ++ car))) "result_class_image" _
      · exact ⟨hresF, hresS4r⟩
      · refine ⟨?_, harS4r⟩
        rw [harEq, List.cons_append]
        exact harF
  · rcases arv with _ | ⟨ar, car⟩
    · obtain ⟨hres1, hres2c, hresne, hresshape⟩ := hres
      obtain ⟨r0, rrest, hresEq⟩ : ∃ u l, res = u :: l := by
        cases res with
        | nil => exact absurd rfl hresne
        | cons a l => exact ⟨a, l, rfl⟩
      have h3 : appendClassTL (dset (dset inputs "text" (Val.strList (text ++ ctext))) "img" (Val.tensorList (imgs ++ cimgs))) ((rci.filter (fun p => !(p.1 == "text"))).filter (fun p => !(p.1 == "img"))) "resolution" = some ((dset (dset (dset inputs "text" (Val.strList (text ++ ctext))) "img" (Val.tensorList (imgs ++ cimgs))) "resolution" (Val.tensorList (res ++ cres))), (((rci.filter (fun p => !(p.1 == "text"))).filter (fun p => !(p.1 == "img"))).filter (fun p => !(p.1 == "resolution")))) :=
        appendClassTL_some (dset (dset inputs "text" (Val.strList (text ++ ctext))) "img" (Val.tensorList (imgs ++ cimgs))) ((rci.filter (fun p => !(p.1 == "text"))).filter (fun p => !(p.1 == "img"))) "resolution" res cres (hresI2.trans hres1) (hresR2.trans hres2c)
      have htextS3 : dget (dset (dset (dset inputs "text" (Val.strList (text ++ ctext))) "img" (Val.tensorList (imgs ++ cimgs))) "resolution" (Val.tensorList (res ++ cres))) "text" = some (.strList (text ++ ctext)) := (dget_dset_ne (dset (dset inputs "text" (Val.strList (text ++ ctext))) "img" (Val.tensorList (imgs ++ cimgs))) "resolution" "text" _ ne8).trans htextI2
      have himgS3 : dget (dset (dset (dset inputs "text" (Val.strList (text ++ ctext))) "img" (Val.tensorList (imgs ++ cimgs))) "resolution" (Val.tensorList (res ++ cres))) "img" = some (.tensorList (imgs ++ cimgs)) := (dget_dset_ne (dset (dset inputs "text" (Val.strList (text ++ ctext))) "img" (Val.tensorList (imgs ++ cimgs))) "resolution" "img" _ ne14).trans himgI2
      have hresS3 : dget (dset (dset (dset inputs "text" (Val.strList (text ++ ctext))) "img" (Val.tensorList (imgs ++ cimgs))) "resolution" (Val.tensorList (res ++ cres))) "resolution" = some (.tensorList (res ++ cres)) := dget_dset_self (dset (dset inputs "text" (Val.strList (text ++ ctext))) "img" (Val.tensorList (imgs ++ cimgs))) "resolution" _
      have harS3 : dget (dset (dset (dset inputs "text" (Val.strList (text ++ ctext))) "img" (Val.tensorList (imgs ++ cimgs))) "resolution" (Val.tensorList (res ++ cres))) "aspect_ratio" = dget inputs "aspect_ratio" := (dget_dset_ne (dset (dset inputs "text" (Val.strList (text ++ ctext))) "img" (Val.tensorList (imgs ++ cimgs))) "resolution" "aspect_ratio" _ ne6).trans harI2
      have htextS3r : dget (((rci.filter (fun p => !(p.1 == "text"))).filter (fun p => !(p.1 == "img"))).filter (fun p => !(p.1 == "resolution"))) "text" = none := (dget_filter_ne ((rci.filter (fun p => !(p.1 == "text"))).filter (fun p => !(p.1 == "img"))) "resolution" "text" ne8).trans htextR2
      have himgS3r : dget (((rci.filter (fun p => !(p.1 == "text"))).filter (fun p => !(p.1 == "img"))).filter (fun p => !(p.1 == "resolution"))) "img" = none := (dget_filter_ne ((rci.filter (fun p => !(p.1 == "text"))).filter (fun p => !(p.1 == "img"))) "resolution" "img" ne14).trans himgR2
      have hresS3r : dget (((rci.filter (fun p => !(p.1 == "text"))).filter (fun p => !(p.1 == "img"))).filter (fun p => !(p.1 == "resolution"))) "resolution" = none := dget_filter_self ((rci.filter (fun p => !(p.1 == "text"))).filter (fun p => !(p.1 == "img"))) "resolution"
      have harS3r : dget (((rci.filter (fun p => !(p.1 == "text"))).filter (fun p => !(p.1 == "img"))).filter (fun p => !(p.1 == "resolution"))) "aspect_ratio" = dget rci "aspect_ratio" := (dget_filter_ne ((rci.filter (fun p => !(p.1 == "text"))).filter (fun p => !(p.1 == "img"))) "resolution" "aspect_ratio" ne6).trans harR2
      have h4 : appendClassTL (dset (dset (dset inputs "text" (Val.strList (text ++ ctext))) "img" (Val.tensorList (imgs ++ cimgs))) "resolution" (Val.tensorList (res ++ cres))) (((rci.filter (fun p => !(p.1 == "text"))).filter (fun p => !(p.1 == "img"))).filter (fun p => !(p.1 == "resolution"))) "aspect_ratio" = some ((dset (dset (dset inputs "text" (Val.strList (text ++ ctext))) "img" (Val.tensorList (imgs ++ cimgs))) "resolution" (Val.tensorList (res ++ cres))), (((rci.filter (fun p => !(p.1 == "text"))).filter (fun p => !(p.1 == "img"))).filter (fun p => !(p.1 == "resolution")))) :=
        appendClassTL_none (dset (dset (dset inputs "text" (Val.strList (text ++ ctext))) "img" (Val.tensorList (imgs ++ cimgs))) "resolution" (Val.tensorList (res ++ cres))) (((rci.filter (fun p => !(p.1 == "text"))).filter (fun p => !(p.1 == "img"))).filter (fun p => !(p.1 == "resolution"))) "aspect_ratio" (harS3.trans har)
      have htextS4 := htextS3
      have himgS4 := himgS3
      have hresS4 := hresS3
      have harS4 : dget (dset (dset (dset inputs "text" (Val.strList (text ++ ctext))) "img" (Val.tensorList (imgs ++ cimgs))) "resolution" (Val.tensorList (res ++ cres))) "aspect_ratio" = none := harS3.trans har
      have htextS4r := htextS3r
      have himgS4r := himgS3r
      have hresS4r := hresS3r
      have harS4r : dget (((rci.filter (fun p => !(p.1 == "text"))).filter (fun p => !(p.1 == "img"))).filter (fun p => !(p.1 == "resolution"))) "aspect_ratio" = dget rci "aspect_ratio" := harS3r
      have hm : mergeResultClassImage inputs (.dict rci) = some (dset (dset (dset (dset inputs "text" (Val.strList (text ++ ctext))) "img" (Val.tensorList (imgs ++ cimgs))) "resolution" (Val.tensorList (res ++ cres))) "result_class_image" (Val.dict (((rci.filter (fun p => !(p.1 == "text"))).filter (fun p => !(p.1 == "img"))).filter (fun p => !(p.1 == "resolution"))))) :=
        mergeResultClassImage_eval inputs rci text ctext (rci.filter (fun p => !(p.1 == "text"))) imgs cimgs ((rci.filter (fun p => !(p.1 == "text"))).filter (fun p => !(p.1 == "img"))) ((dset (dset (dset inputs "text" (Val.strList (text ++ ctext))) "img" (Val.tensorList (imgs ++ cimgs))) "resolution" (Val.tensorList (res ++ cres))), (((rci.filter (fun p => !(p.1 == "text"))).filter (fun p => !(p.1 == "img"))).filter (fun p => !(p.1 == "resolution")))) ((dset (dset (dset inputs "text" (Val.strList (text ++ ctext))) "img" (Val.tensorList (imgs ++ cimgs))) "resolution" (Val.tensorList (res ++ cres))), (((rci.filter (fun p => !(p.1 == "text"))).filter (fun p => !(p.1 == "img"))).filter (fun p => !(p.1 == "resolution")))) htext hp1 himgI1 hp2 h3 h4
      have heval := pafInner_to_tail data inputs (.dict rci) _ hin hrciv hm
      have himgT : dget (dset (dset (dset (dset inputs "text" (Val.strList (text ++ ctext))) "img" (Val.tensorList (imgs ++ cimgs))) "resolution" (Val.tensorList (res ++ cres))) "result_class_image" (Val.dict (((rci.filter (fun p => !(p.1 == "text"))).filter (fun p => !(p.1 == "img"))).filter (fun p => !(p.1 == "resolution"))))) "img" = some (.tensorList (t0 :: (irest ++ cimgs))) := by
        rw [← List.cons_append, ← himgsEq]
        exact (dget_dset_ne (dset (dset (dset inputs "text" (Val.strList (text ++ ctext))) "img" (Val.tensorList (imgs ++ cimgs))) "resolution" (Val.tensorList (res ++ cres))) "result_class_image" "img" _ ne11).trans himgS4
      have hresshT : ∀ u ∈ rrest ++ cres, u.shape = r0.shape := by
        intro u hu
        have hmem : u ∈ res ++ cres := by
          rw [hresEq, List.cons_append]
          exact List.mem_cons_of_mem r0 hu
        have hmem0 : r0 ∈ res ++ cres := by
          rw [hresEq, List.cons_append]
          exact List.mem_cons_self r0 _
        exact (hresshape u hmem).trans (hresshape r0 hmem0).symm
      have hresT : dget (dset (dset (dset (dset inputs "text" (Val.strList (text ++ ctext))) "img" (Val.tensorList (imgs ++ cimgs))) "resolution" (Val.tensorList (res ++ cres))) "result_class_image" (Val.dict (((rci.filter (fun p => !(p.1 == "text"))).filter (fun p => !(p.1 == "img"))).filter (fun p => !(p.1 == "resolution"))))) "resolution" = some (.tensorList (r0 :: (rrest ++ cres))) := by
        rw [← List.cons_append, ← hresEq]
        exact (dget_dset_ne (dset (dset (dset inputs "text" (Val.strList (text ++ ctext))) "img" (Val.tensorList (imgs ++ cimgs))) "resolution" (Val.tensorList (res ++ cres))) "result_class_image" "resolution" _ ne12).trans hresS4
      have harT : dget (dset (dset (dset (dset inputs "text" (Val.strList (text ++ ctext))) "img" (Val.tensorList (imgs ++ cimgs))) "resolution" (Val.tensorList (res ++ cres))) "result_class_image" (Val.dict (((rci.filter (fun p => !(p.1 == "text"))).filter (fun p => !(p.1 == "img"))).filter (fun p => !(p.1 == "resolution"))))) "aspect_ratio" = none := (dget_dset_ne (dset (dset (dset inputs "text" (Val.strList (text ++ ctext))) "img" (Val.tensorList (imgs ++ cimgs))) "resolution" (Val.tensorList (res ++ cres))) "result_class_image" "aspect_ratio" _ ne13).trans harS4
      obtain ⟨inputs4, htail, himgF, hresF, harF, hframeF⟩ :=
        pafTail_spec data (dset (dset (dset (dset inputs "text" (Val.strList (text ++ ctext))) "img" (Val.tensorList (imgs ++ cimgs))) "resolution" (Val.tensorList (res ++ cres))) "result_class_image" (Val.dict (((rci.filter (fun p => !(p.1 == "text"))).filter (fun p => !(p.1 == "img"))).filter (fun p => !(p.1 == "resolution"))))) t0 (irest ++ cimgs) (some (r0, rrest ++ cres)) (none) himgT hshT ⟨hresT, hresshT⟩ harT
      refine ⟨inputs4, (((rci.filter (fun p => !(p.1 == "text"))).filter (fun p => !(p.1 == "img"))).filter (fun p => !(p.1 == "resolution"))), ?_, ?_, ?_, ?_, htextS4r, himgS4r, ?_, ?_⟩
      · unfold pafForward
        rw [heval, htail]
        rfl
      · rw [hframeF "text" (by decide)]
        exact (dget_dset_ne (dset (dset (dset inputs "text" (Val.strList (text ++ ctext))) "img" (Val.tensorList (imgs ++ cimgs))) "resolution" (Val.tensorList (res ++ cres))) "result_class_image" "text" _ ne10).trans htextS4
      · rw [himgsEq, List.cons_append]
        exact himgF
      · rw [hframeF "result_class_image" (by decide)]
        exact dget_dset_self (dset (dset (dset inputs "text" (Val.strList (text ++ ctext))) "img" (Val.tensorList (imgs ++ cimgs))) "resolution" (Val.tensorList (res ++ cres))) "result_class_image" _
      · refine ⟨?_, hresS4r⟩
        rw [hresEq, List.cons_append]
        exact hresF
      · exact ⟨harF, harS4r⟩
    · obtain ⟨hres1, hres2c, hresne, hresshape⟩ := hres
      obtain ⟨r0, rrest, hresEq⟩ : ∃ u l, res = u :: l := by
        cases res with
        | nil => exact absurd rfl hresne
        | cons a l => exact ⟨a, l, rfl⟩
      have h3 : appendClassTL (dset (dset inputs "text" (Val.strList (text ++ ctext))) "img" (Val.tensorList (imgs ++ cimgs))) ((rci.filter (fun p => !(p.1 == "text"))).filter (fun p => !(p.1 == "img"))) "resolution" = some ((dset (dset (dset inputs "text" (Val.strList (text ++ ctext))) "img" (Val.tensorList (imgs ++ cimgs))) "resolution" (Val.tensorList (res ++ cres))), (((rci.filter (fun p => !(p.1 == "text"))).filter (fun p => !(p.1 == "img"))).filter (fun p => !(p.1 == "resolution")))) :=
        appendClassTL_some (dset (dset inputs "text" (Val.strList (text ++ ctext))) "img" (Val.tensorList (imgs ++ cimgs))) ((rci.filter (fun p => !(p.1 == "text"))).filter (fun p => !(p.1 == "img"))) "resolution" res cres (hresI2.trans hres1) (hresR2.trans hres2c)
      have htextS3 : dget (dset (dset (dset inputs "text" (Val.strList (text ++ ctext))) "img" (Val.tensorList (imgs ++ cimgs))) "resolution" (Val.tensorList (res ++ cres))) "text" = some (.strList (text ++ ctext)) := (dget_dset_ne (dset (dset inputs "text" (Val.strList (text ++ ctext))) "img" (Val.tensorList (imgs ++ cimgs))) "resolution" "text" _ ne8).trans htextI2
      have himgS3 : dget (dset (dset (dset inputs "text" (Val.strList (text ++ ctext))) "img" (Val.tensorList (imgs ++ cimgs))) "resolution" (Val.tensorList (res ++ cres))) "img" = some (.tensorList (imgs ++ cimgs)) := (dget_dset_ne (dset (dset inputs "text" (Val.strList (text ++ ctext))) "img" (Val.tensorList (imgs ++ cimgs))) "resolution" "img" _ ne14).trans himgI2
      have hresS3 : dget (dset (dset (dset inputs "text" (Val.strList (text ++ ctext))) "img" (Val.tensorList (imgs ++ cimgs))) "resolution" (Val.tensorList (res ++ cres))) "resolution" = some (.tensorList (res ++ cres)) := dget_dset_self (dset (dset inputs "text" (Val.strList (text ++ ctext))) "img" (Val.tensorList (imgs ++ cimgs))) "resolution" _
      have harS3 : dget (dset (dset (dset inputs "text" (Val.strList (text ++ ctext))) "img" (Val.tensorList (imgs ++ cimgs))) "resolution" (Val.tensorList (res ++ cres))) "aspect_ratio" = dget inputs "aspect_ratio" := (dget_dset_ne (dset (dset inputs "text" (Val.strList (text ++ ctext))) "img" (Val.tensorList (imgs ++ cimgs))) "resolution" "aspect_ratio" _ ne6).trans harI2
      have htextS3r : dget (((rci.filter (fun p => !(p.1 == "text"))).filter (fun p => !(p.1 == "img"))).filter (fun p => !(p.1 == "resolution"))) "text" = none := (dget_filter_ne ((rci.filter (fun p => !(p.1 == "text"))).filter (fun p => !(p.1 == "img"))) "resolution" "text" ne8).trans htextR2
      have himgS3r : dget (((rci.filter (fun p => !(p.1 == "text"))).filter (fun p => !(p.1 == "img"))).filter (fun p => !(p.1 == "resolution"))) "img" = none := (dget_filter_ne ((rci.filter (fun p => !(p.1 == "text"))).filter (fun p => !(p.1 == "img"))) "resolution" "img" ne14).trans himgR2
      have hresS3r : dget (((rci.filter (fun p => !(p.1 == "text"))).filter (fun p => !(p.1 == "img"))).filter (fun p => !(p.1 == "resolution"))) "resolution" = none := dget_filter_self ((rci.filter (fun p => !(p.1 == "text"))).filter (fun p => !(p.1 == "img"))) "resolution"
      have harS3r : dget (((rci.filter (fun p => !(p.1 == "text"))).filter (fun p => !(p.1 == "img"))).filter (fun p => !(p.1 == "resolution"))) "aspect_ratio" = dget rci "aspect_ratio" := (dget_filter_ne ((rci.filter (fun p => !(p.1 == "text"))).filter (fun p => !(p.1 == "img"))) "resolution" "aspect_ratio" ne6).trans harR2
      obtain ⟨har1, har2c, harne, harshape⟩ := har
      obtain ⟨a0, arest, harEq⟩ : ∃ u l, ar = u :: l := by
        cases ar with
        | nil => exact absurd rfl harne
        | cons a l => exact ⟨a, l, rfl⟩
      have h4 : appendClassTL (dset (dset (dset inputs "text" (Val.strList (text ++ ctext))) "img" (Val.tensorList (imgs ++ cimgs))) "resolution" (Val.tensorList (res ++ cres))) (((rci.filter (fun p => !(p.1 == "text"))).filter (fun p => !(p.1 == "img"))).filter (fun p => !(p.1 == "resolution"))) "aspect_ratio" = some ((dset (dset (dset (dset inputs "text" (Val.strList (text ++ ctext))) "img" (Val.tensorList (imgs ++ cimgs))) "resolution" (Val.tensorList (res ++ cres))) "aspect_ratio" (Val.tensorList (ar ++ car))), ((((rci.filter (fun p => !(p.1 == "text"))).filter (fun p => !(p.1 == "img"))).filter (fun p => !(p.1 == "resolution"))).filter (fun p => !(p.1 == "aspect_ratio")))) :=
        appendClassTL_some (dset (dset (dset inputs "text" (Val.strList (text ++ ctext))) "img" (Val.tensorList (imgs ++ cimgs))) "resolution" (Val.tensorList (res ++ cres))) (((rci.filter (fun p => !(p.1 == "text"))).filter (fun p => !(p.1 == "img"))).filter (fun p => !(p.1 == "resolution"))) "aspect_ratio" ar car (harS3.trans har1) (harS3r.trans har2c)
      have htextS4 : dget (dset (dset (dset (dset inputs "text" (Val.strList (text ++ ctext))) "img" (Val.tensorList (imgs ++ cimgs))) "resolution" (Val.tensorList (res ++ cres))) "aspect_ratio" (Val.tensorList (ar ++ car))) "text" = some (.strList (text ++ ctext)) := (dget_dset_ne (dset (dset (dset inputs "text" (Val.strList (text ++ ctext))) "img" (Val.tensorList (imgs ++ cimgs))) "resolution" (Val.tensorList (res ++ cres))) "aspect_ratio" "text" _ ne9).trans htextS3
      have himgS4 : dget (dset (dset (dset (dset inputs "text" (Val.strList (text ++ ctext))) "img" (Val.tensorList (imgs ++ cimgs))) "resolution" (Val.tensorList (res ++ cres))) "aspect_ratio" (Val.tensorList (ar ++ car))) "img" = some (.tensorList (imgs ++ cimgs)) := (dget_dset_ne (dset (dset (dset inputs "text" (Val.strList (text ++ ctext))) "img" (Val.tensorList (imgs ++ cimgs))) "resolution" (Val.tensorList (res ++ cres))) "aspect_ratio" "img" _ ne15).trans himgS3
      have hresS4 : dget (dset (dset (dset (dset inputs "text" (Val.strList (text ++ ctext))) "img" (Val.tensorList (imgs ++ cimgs))) "resolution" (Val.tensorList (res ++ cres))) "aspect_ratio" (Val.tensorList (ar ++ car))) "resolution" = some (.tensorList (res ++ cres)) := (dget_dset_ne (dset (dset (dset inputs "text" (Val.strList (text ++ ctext))) "img" (Val.tensorList (imgs ++ cimgs))) "resolution" (Val.tensorList (res ++ cres))) "aspect_ratio" "resolution" _ ne17).trans hresS3
      have harS4 : dget (dset (dset (dset (dset inputs "text" (Val.strList (text ++ ctext))) "img" (Val.tensorList (imgs ++ cimgs))) "resolution" (Val.tensorList (res ++ cres))) "aspect_ratio" (Val.tensorList (ar ++ car))) "aspect_ratio" = some (.tensorList (ar ++ car)) := dget_dset_self (dset (dset (dset inputs "text" (Val.strList (text ++ ctext))) "img" (Val.tensorList (imgs ++ cimgs))) "resolution" (Val.tensorList (res ++ cres))) "aspect_ratio" _
      have htextS4r : dget ((((rci.filter (fun p => !(p.1 == "text"))).filter (fun p => !(p.1 == "img"))).filter (fun p => !(p.1 == "resolution"))).filter (fun p => !(p.1 == "aspect_ratio"))) "text" = none := (dget_filter_ne (((rci.filter (fun p => !(p.1 == "text"))).filter (fun p => !(p.1 == "img"))).filter (fun p => !(p.1 == "resolution"))) "aspect_ratio" "text" ne9).trans htextS3r
      have himgS4r : dget ((((rci.filter (fun p => !(p.1 == "text"))).filter (fun p => !(p.1 == "img"))).filter (fun p => !(p.1 == "resolution"))).filter (fun p => !(p.1 == "aspect_ratio"))) "img" = none := (dget_filter_ne (((rci.filter (fun p => !(p.1 == "text"))).filter (fun p => !(p.1 == "img"))).filter (fun p => !(p.1 == "resolution"))) "aspect_ratio" "img" ne15).trans himgS3r
      have hresS4r : dget ((((rci.filter (fun p => !(p.1 == "text"))).filter (fun p => !(p.1 == "img"))).filter (fun p => !(p.1 == "resolution"))).filter (fun p => !(p.1 == "aspect_ratio"))) "resolution" = none := (dget_filter_ne (((rci.filter (fun p => !(p.1 == "text"))).filter (fun p => !(p.1 == "img"))).filter (fun p => !(p.1 == "resolution"))) "aspect_ratio" "resolution" ne17).trans hresS3r
      have harS4r : dget ((((rci.filter (fun p => !(p.1 == "text"))).filter (fun p => !(p.1 == "img"))).filter (fun p => !(p.1 == "resolution"))).filter (fun p => !(p.1 == "aspect_ratio"))) "aspect_ratio" = none := dget_filter_self (((rci.filter (fun p => !(p.1 == "text"))).filter (fun p => !(p.1 == "img"))).filter (fun p => !(p.1 == "resolution"))) "aspect_ratio"
      have hm : mergeResultClassImage inputs (.dict rci) = some (dset (dset (dset (dset (dset inputs "text" (Val.strList (text ++ ctext))) "img" (Val.tensorList (imgs ++ cimgs))) "resolution" (Val.tensorList (res ++ cres))) "aspect_ratio" (Val.tensorList (ar ++ car))) "result_class_image" (Val.dict ((((rci.filter (fun p => !(p.1 == "text"))).filter (fun p => !(p.1 == "img"))).filter (fun p => !(p.1 == "resolution"))).filter (fun p => !(p.1 == "aspect_ratio"))))) :=
        mergeResultClassImage_eval inputs rci text ctext (rci.filter (fun p => !(p.1 == "text"))) imgs cimgs ((rci.filter (fun p => !(p.1 == "text"))).filter (fun p => !(p.1 == "img"))) ((dset (dset (dset inputs "text" (Val.strList (text ++ ctext))) "img" (Val.tensorList (imgs ++ cimgs))) "resolution" (Val.tensorList (res ++ cres))), (((rci.filter (fun p => !(p.1 == "text"))).filter (fun p => !(p.1 == "img"))).filter (fun p => !(p.1 == "resolution")))) ((dset (dset (dset (dset inputs "text" (Val.strList (text ++ ctext))) "img" (Val.tensorList (imgs ++ cimgs))) "resolution" (Val.tensorList (res ++ cres))) "aspect_ratio" (Val.tensorList (ar ++ car))), ((((rci.filter (fun p => !(p.1 == "text"))).filter (fun p => !(p.1 == "img"))).filter (fun p => !(p.1 == "resolution"))).filter (fun p => !(p.1 == "aspect_ratio")))) htext hp1 himgI1 hp2 h3 h4
      have heval := pafInner_to_tail data inputs (.dict rci) _ hin hrciv hm
      have himgT : dget (dset (dset (dset (dset (dset inputs "text" (Val.strList (text ++ ctext))) "img" (Val.tensorList (imgs ++ cimgs))) "resolution" (Val.tensorList (res ++ cres))) "aspect_ratio" (Val.tensorList (ar ++ car))) "result_class_image" (Val.dict ((((rci.filter (fun p => !(p.1 == "text"))).filter (fun p => !(p.1 == "img"))).filter (fun p => !(p.1 == "resolution"))).filter (fun p => !(p.1 == "aspect_ratio"))))) "img" = some (.tensorList (t0 :: (irest ++ cimgs))) := by
        rw [← List.cons_append, ← himgsEq]
        exact (dget_dset_ne (dset (dset (dset (dset inputs "text" (Val.strList (text ++ ctext))) "img" (Val.tensorList (imgs ++ cimgs))) "resolution" (Val.tensorList (res ++ cres))) "aspect_ratio" (Val.tensorList (ar ++ car))) "result_class_image" "img" _ ne11).trans himgS4
      have hresshT : ∀ u ∈ rrest ++ cres, u.shape = r0.shape := by
        intro u hu
        have hmem : u ∈ res ++ cres := by
          rw [hresEq, List.cons_append]
          exact List.mem_cons_of_mem r0 hu
        have hmem0 : r0 ∈ res ++ cres := by
          rw [hresEq, List.cons_append]
          exact List.mem_cons_self r0 _
        exact (hresshape u hmem).trans (hresshape r0 hmem0).symm
      have hresT : dget (dset (dset (dset (dset (dset inputs "text" (Val.strList (text ++ ctext))) "img" (Val.tensorList (imgs ++ cimgs))) "resolution" (Val.tensorList (res ++ cres))) "aspect_ratio" (Val.tensorList (ar ++ car))) "result_class_image" (Val.dict ((((rci.filter (fun p => !(p.1 == "text"))).filter (fun p => !(p.1 == "img"))).filter (fun p => !(p.1 == "resolution"))).filter (fun p => !(p.1 == "aspect_ratio"))))) "resolution" = some (.tensorList (r0 :: (rrest ++ cres))) := by
        rw [← List.cons_append, ← hresEq]
        exact (dget_dset_ne (dset (dset (dset (dset inputs "text" (Val.strList (text ++ ctext))) "img" (Val.tensorList (imgs ++ cimgs))) "resolution" (Val.tensorList (res ++ cres))) "aspect_ratio" (Val.tensorList (ar ++ car))) "result_class_image" "resolution" _ ne12).trans hresS4
      have harshT : ∀ u ∈ arest ++ car, u.shape = a0.shape := by
        intro u hu
        have hmem : u ∈ ar ++ car := by
          rw [harEq, List.cons_append]
          exact List.mem_cons_of_mem a0 hu
        have hmem0 : a0 ∈ ar ++ car := by
          rw [harEq, List.cons_append]
          exact List.mem_cons_self a0 _
        exact (harshape u hmem).trans (harshape a0 hmem0).symm
      have harT : dget (dset (dset (dset (dset (dset inputs "text" (Val.strList (text ++ ctext))) "img" (Val.tensorList (imgs ++ cimgs))) "resolution" (Val.tensorList (res ++ cres))) "aspect_ratio" (Val.tensorList (ar ++ car))) "result_class_image" (Val.dict ((((rci.filter (fun p => !(p.1 == "text"))).filter (fun p => !(p.1 == "img"))).filter (fun p => !(p.1 == "resolution"))).filter (fun p => !(p.1 == "aspect_ratio"))))) "aspect_ratio" = some (.tensorList (a0 :: (arest ++ car))) := by
        rw [← List.cons_append, ← harEq]
        exact (dget_dset_ne (dset (dset (dset (dset inputs "text" (Val.strList (text ++ ctext))) "img" (Val.tensorList (imgs ++ cimgs))) "resolution" (Val.tensorList (res ++ cres))) "aspect_ratio" (Val.tensorList (ar ++ car))) "result_class_image" "aspect_ratio" _ ne13).trans harS4
      obtain ⟨inputs4, htail, himgF, hresF, harF, hframeF⟩ :=
        pafTail_spec data (dset (dset (dset (dset (dset inputs "text" (Val.strList (text ++ ctext))) "img" (Val.tensorList (imgs ++ cimgs))) "resolution" (Val.tensorList (res ++ cres))) "aspect_ratio" (Val.tensorList (ar ++ car))) "result_class_image" (Val.dict ((((rci.filter (fun p => !(p.1 == "text"))).filter (fun p => !(p.1 == "img"))).filter (fun p => !(p.1 == "resolution"))).filter (fun p => !(p.1 == "aspect_ratio"))))) t0 (irest ++ cimgs) (some (r0, rrest ++ cres)) (some (a0, arest ++ car)) himgT hshT ⟨hresT, hresshT⟩ ⟨harT, harshT⟩
      refine ⟨inputs4, ((((rci.filter (fun p => !(p.1 == "text"))).filter (fun p => !(p.1 == "img"))).filter (fun p => !(p.1 == "resolution"))).filter (fun p => !(p.1 == "aspect_ratio"))), ?_, ?_, ?_, ?_, htextS4r, himgS4r, ?_, ?_⟩
      · unfold pafForward
        rw [heval, htail]
        rfl
      · rw [hframeF "text" (by decide)]
        exact (dget_dset_ne (dset (dset (dset (dset inputs "text" (Val.strList (text ++ ctext))) "img" (Val.tensorList (imgs ++ cimgs))) "resolution" (Val.tensorList (res ++ cres))) "aspect_ratio" (Val.tensorList (ar ++ car))) "result_class_image" "text" _ ne10).trans htextS4
      · rw [himgsEq, List.cons_append]
        exact himgF
      · rw [hframeF "result_class_image" (by decide)]
        exact dget_dset_self (dset (dset (dset (dset inputs "text" (Val.strList (text ++ ctext))) "img" (Val.tensorList (imgs ++ cimgs))) "resolution" (Val.tensorList (res ++ cres))) "aspect_ratio" (Val.tensorList (ar ++ car))) "result_class_image" _
      · refine ⟨?_, hresS4r⟩
        rw [hresEq, List.cons_append]
        exact hresF
      · refine ⟨?_, harS4r⟩
        rw [harEq, List.cons_append]
        exact harF

/-- Extract the shape of the `img` batch tensor of a forward output. -/
def imgShapeOfOutput (o : Option Dict) : Option (List Nat) :=
  match o with
  | none => none
  | some d =>
    match dget d "inputs" with
    | some (.dict i) =>
      match dget i "img" with
      | some (.tensor t) => some t.shape
      | _ => none
    | _ => none

/-- A well-formed single-image inputs dict (no class image). -/
def pafW_inputs : Dict := [("img", Val.tensorList [⟨[2], [5, 6]⟩])]

def pafW_data : Dict := [("inputs", Val.dict pafW_inputs)]

/-- The reshaped dict `forward` produces from `pafW_data`. -/
def pafW_out : Dict := [("inputs", Val.dict [("img",
  Val.tensor ⟨[1, 2], [5, 6]⟩)])]

/-- Inputs dict whose `img` is a well-formed non-empty equal-shaped tensor
list but whose `resolution` entry is an empty list. -/
def pafCexA_inputs : Dict := [("img", Val.tensorList [⟨[2], [5, 6]⟩]),
  ("resolution", Val.tensorList [])]

def pafCexA_data : Dict := [("inputs", Val.dict pafCexA_inputs)]

def pafCexB_rci : Dict := [("text", Val.strList ["b"]),
  ("img", Val.tensorList [⟨[2], [3, 4]⟩])]

/-- Inputs dict with a well-formed one-element `img` list and a
`result_class_image` holding one more class example. -/
def pafCexB_inputs : Dict := [("text", Val.strList ["a"]),
  ("img", Val.tensorList [⟨[2], [1, 2]⟩]),
  ("result_class_image", Val.dict pafCexB_rci)]

def pafCexB_data : Dict := [("inputs", Val.dict pafCexB_inputs)]

/-- C1 counterexample: (a) a data dict whose `inputs.img` is a non-empty list
of equal-shaped tensors, yet `forward` raises (returns `none`) because the
`resolution` entry is an empty list — so it does not return the base-class
forward of any reshaped dict; (b) with `result_class_image` present, the
stacked batch has leading dimension 2 while the original `inputs.img` list
has length 1, so the new first dimension does not equal the length of the
list. -/
theorem pixart_forward_stacks_cex :
    dget pafCexA_inputs "img" = some (.tensorList [⟨[2], [5, 6]⟩]) ∧
    pafForward id pafCexA_data = none ∧
    dget pafCexB_inputs "img" = some (.tensorList [⟨[2], [1, 2]⟩]) ∧
    imgShapeOfOutput (pafForward id pafCexB_data) = some [2, 2] ∧
    ([2, 2] : List Nat) ≠ [(⟨[2], [1, 2]⟩ : Tensor)].length :: [2] :=
  ⟨rfl, rfl, rfl, rfl, by decide⟩

/-- Closed instance of `pixart_forward_stacks` on a one-image batch. -/
theorem pixart_forward_stacks_witness :
    ∃ inputs' : Dict,
      pafForward id pafW_data =
        some (id (dset pafW_data "inputs" (.dict inputs'))) ∧
      (∃ st : Tensor, dget inputs' "img" = some (.tensor st) ∧
        st.shape = [1, 2]) ∧
      dget inputs' "resolution" = none ∧
      dget inputs' "aspect_ratio" = none :=
  pixart_forward_stacks id pafW_data pafW_inputs ⟨[2], [5, 6]⟩ [] none none
    rfl rfl rfl (by simp) rfl rfl

/-- Closed instance of `pixart_forward_frame`: the reshaped dict is passed to
the base forward and an unrelated key is looked up unchanged. -/
theorem pixart_forward_frame_witness :
    pafForward id pafW_data = some (id pafW_out) ∧
    dget pafW_out "extra" = dget pafW_data "extra" :=
  ⟨(pixart_forward_frame pafW_data pafW_out rfl).1 id,
   (pixart_forward_frame pafW_data pafW_out rfl).2.1 "extra" (by decide)⟩

def pafW2_rci : Dict := [("text", Val.strList ["class b"]),
  ("img", Val.tensorList [⟨[2], [3, 4]⟩])]

def pafW2_inputs : Dict := [("text", Val.strList ["instance a"]),
  ("img", Val.tensorList [⟨[2], [1, 2]⟩]),
  ("result_class_image", Val.dict pafW2_rci)]

def pafW2_data : Dict := [("inputs", Val.dict pafW2_inputs)]

/-- Closed instance of `pixart_forward_class_image`: one instance and one
class example are merged, stacked in order, and popped from the sub-dict. -/
theorem pixart_forward_class_image_witness :
    ∃ inputs4 rciF : Dict,
      pafForward id pafW2_data =
        some (id (dset pafW2_data "inputs" (.dict inputs4))) ∧
      dget inputs4 "text" =
        some (.strList (["instance a"] ++ ["class b"])) ∧
      dget inputs4 "img" = (Tensor.stack ([⟨[2], [1, 2]⟩] ++
        [⟨[2], [3, 4]⟩])).map Val.tensor ∧
      dget inputs4 "result_class_image" = some (.dict rciF) ∧
      dget rciF "text" = none ∧ dget rciF "img" = none ∧
      (dget inputs4 "resolution" = none ∧
        dget rciF "resolution" = dget pafW2_rci "resolution") ∧
      (dget inputs4 "aspect_ratio" = none ∧
        dget rciF "aspect_ratio" = dget pafW2_rci "aspect_ratio") :=
  pixart_forward_class_image id pafW2_data pafW2_inputs pafW2_rci
    ["instance a"] ["class b"] [⟨[2], [1, 2]⟩] [⟨[2], [3, 4]⟩] [2] [] []
    none none rfl rfl rfl rfl rfl rfl (by decide) (by decide) rfl rfl

/-! ## Configuration files

The configs under `configs/` are declarative Python dicts; they are embedded
as Lean data, with float literals (`0.5`) as exact rationals. -/

/-- A top-level training config: its `_base_` list and the top-level names it
assigns besides `_base_`. -/
structure TopConfig where
  base : List String
  overrides : List String

/-- `configs/lcm_lora/lcm_xl_lora_pokemon_blip.py`. -/
def lcm_xl_lora_pokemon_blip : TopConfig :=
  { base := ["../_base_/models/lcm_xl_lora.py",
      "../_base_/datasets/pokemon_blip_xl_pre_compute.py",
      "../_base_/schedules/lcm_xl_50e.py",
      "../_base_/default_runtime.py"],
    overrides := ["train_dataloader", "optim_wrapper", "custom_hooks"] }

/-- `configs/pixart_alpha_lora/pixart_alpha_1024_pokemon_blip.py`. -/
def pixart_alpha_1024_pokemon_blip : TopConfig :=
  { base := ["../_base_/models/pixart_alpha_1024.py",
      "../_base_/datasets/pokemon_blip_pixart_lora.py",
      "../_base_/schedules/stable_diffusion_50e.py",
      "../_base_/default_runtime.py"],
    overrides := ["optim_wrapper", "custom_hooks"] }

/-- `configs/stable_diffusion_xl/stable_diffusion_xl_pokemon_blip_pre_compute.py`. -/
def stable_diffusion_xl_pokemon_blip_pre_compute : TopConfig :=
  { base := ["../_base_/models/stable_diffusion_xl.py",
      "../_base_/datasets/pokemon_blip_xl_pre_compute.py",
      "../_base_/schedules/stable_diffusion_xl_50e.py",
      "../_base_/default_runtime.py"],
    overrides := ["model", "train_dataloader", "optim_wrapper_cfg"] }

/-- `configs/distill_sd_dreambooth/tiny_sd_dreambooth_lora_dog.py`. -/
def tiny_sd_dreambooth_lora_dog : TopConfig :=
  { base := ["../_base_/models/tiny_sd_lora.py",
      "../_base_/datasets/dog_dreambooth.py",
      "../_base_/schedules/stable_diffusion_1k.py",
      "../_base_/default_runtime.py"],
    overrides := ["train_dataloader"] }

/-- All top-level training configs under `configs/`. -/
def topConfigs : List TopConfig :=
  [lcm_xl_lora_pokemon_blip, pixart_alpha_1024_pokemon_blip,
   stable_diffusion_xl_pokemon_blip_pre_compute, tiny_sd_dreambooth_lora_dog]

/-- The declarative dictionary entries a top-level config may override:
dataloader, optimizer wrapper settings, hooks and model flags. -/
def declarativeOverrideKeys : List String :=
  ["train_dataloader", "optim_wrapper", "optim_wrapper_cfg", "custom_hooks",
   "model"]

/-- `s.startswith(pre)` on the underlying character lists. -/
def baseStartsWith (pre s : String) : Bool :=
  s.toList.take pre.toList.length == pre.toList

/-- The `_base_` list selects exactly one model base file, one dataset base
file, one schedule base file and the default runtime file, in that order. -/
def wellFormedBase (bs : List String) : Bool :=
  match bs with
  | [m, d, s, r] =>
    baseStartsWith "../_base_/models/" m &&
    baseStartsWith "../_base_/datasets/" d &&
    baseStartsWith "../_base_/schedules/" s &&
    (r == "../_base_/default_runtime.py")
  | _ => false

def topConfigOk (cfg : TopConfig) : Bool :=
  wellFormedBase cfg.base &&
    cfg.overrides.all (fun k => declarativeOverrideKeys.contains k)

/-- C8: every top-level training config declares a `_base_` list selecting
one model, one dataset, one schedule base file and the default runtime, in
that order, and overrides only declarative dictionary entries. -/
theorem top_configs_select_bases : topConfigs.all topConfigOk = true := by
  decide

/-- One transform dict of a `train_pipeline` list.  Float literals are
embedded as exact rationals, written as numerator/denominator pairs
(`0.5` is `(1, 2)`). -/
inductive PipelineStep where
  | saveImageShape
  | resize (size : Nat) (interpolation : String)
  | randomCrop (size : Nat)
  | randomHorizontalFlip (p : Nat × Nat)
  | computeTimeIds
  | toTensor
  | dumpImage (maxImgs : Nat) (dumpDir : String)
  | normalize (mean std : List (Nat × Nat))
  | packInputs (inputKeys : List String)
  deriving DecidableEq, Repr

/-- One hook dict of a `custom_hooks` list. -/
inductive HookCfg where
  | visualization (prompt : List String) (byEpoch : Option Bool)
      (interval : Option Nat) (height width : Nat)
  | sdCheckpoint
  | loraSave
  deriving DecidableEq, Repr

/-- A hook that saves checkpoints (`SDCheckpointHook` / `LoRASaveHook`). -/
def isCheckpointSavingHook : HookCfg → Bool
  | .sdCheckpoint => true
  | .loraSave => true
  | _ => false

/-- `train_pipeline` of `configs/_base_/datasets/pokemon_blip_xl.py`. -/
def pokemon_blip_xl_train_pipeline : List PipelineStep :=
  [.saveImageShape, .resize 1024 "bilinear", .randomCrop 1024,
   .randomHorizontalFlip (1, 2), .computeTimeIds, .toTensor,
   .normalize [(1, 2)] [(1, 2)], .packInputs ["img", "text", "time_ids"]]

/-- `custom_hooks` of `configs/_base_/datasets/pokemon_blip_xl.py`. -/
def pokemon_blip_xl_custom_hooks : List HookCfg :=
  [.visualization (List.replicate 4 "yoda pokemon") none none 1024 1024,
   .sdCheckpoint]

/-- `train_pipeline` of
`configs/_base_/datasets/google_backpack_dreambooth_xl.py`. -/
def google_backpack_dreambooth_xl_train_pipeline : List PipelineStep :=
  [.saveImageShape, .resize 1024 "bilinear", .randomCrop 1024,
   .randomHorizontalFlip (1, 2), .computeTimeIds, .toTensor,
   .dumpImage 10 "work_dirs/dump",
   .normalize [(1, 2)] [(1, 2)], .packInputs ["img", "text", "time_ids"]]

/-- `custom_hooks` of
`configs/_base_/datasets/google_backpack_dreambooth_xl.py`. -/
def google_backpack_dreambooth_xl_custom_hooks : List HookCfg :=
  [.visualization
     (List.replicate 4 "A photo of sks backpack in the Grand Canyon")
     (some false) (some 100) 1024 1024,
   .loraSave]

/-- The transform sequence the claim lists: save shape, resize 1024, random
crop 1024, random horizontal flip p=0.5, compute time ids, to tensor,
normalize mean/std 0.5, pack `['img', 'text', 'time_ids']`. -/
def c9ClaimedSteps : List PipelineStep :=
  [.saveImageShape, .resize 1024 "bilinear", .randomCrop 1024,
   .randomHorizontalFlip (1, 2), .computeTimeIds, .toTensor,
   .normalize [(1, 2)] [(1, 2)], .packInputs ["img", "text", "time_ids"]]

/-- C9: each dataset base config's `train_pipeline` performs the claimed
transforms in order (as an ordered subsequence; the dreambooth config
additionally dumps images between tensor conversion and normalisation) and
ends with the `PackInputs` step, and its `custom_hooks` is a
`VisualizationHook` with four copies of a single 1024x1024 prompt followed by
a checkpoint-saving hook. -/
theorem dataset_configs_pipeline :
    (c9ClaimedSteps.Sublist pokemon_blip_xl_train_pipeline ∧
     pokemon_blip_xl_train_pipeline.getLast? =
       some (.packInputs ["img", "text", "time_ids"]) ∧
     ∃ p b i hook, pokemon_blip_xl_custom_hooks =
       [.visualization (List.replicate 4 p) b i 1024 1024, hook] ∧
       isCheckpointSavingHook hook = true) ∧
    (c9ClaimedSteps.Sublist google_backpack_dreambooth_xl_train_pipeline ∧
     google_backpack_dreambooth_xl_train_pipeline.getLast? =
       some (.packInputs ["img", "text", "time_ids"]) ∧
     ∃ p b i hook, google_backpack_dreambooth_xl_custom_hooks =
       [.visualization (List.replicate 4 p) b i 1024 1024, hook] ∧
       isCheckpointSavingHook hook = true) := by
  refine ⟨⟨by decide, by decide,
    "yoda pokemon", none, none, .sdCheckpoint, rfl, rfl⟩,
    ⟨by decide, by decide,
    "A photo of sks backpack in the Grand Canyon", some false, some 100,
      .loraSave, rfl, rfl⟩⟩

/-- `unet_lora_config` dict of a model base config. -/
structure LoraConfig where
  type : String
  r : Nat
  lora_alpha : Nat
  target_modules : List String
  deriving DecidableEq, Repr

/-- A model base config (`model = dict(...)`). -/
structure ModelConfig where
  type : String
  model : String
  unet_lora_config : LoraConfig
  deriving DecidableEq, Repr

/-- `model` of `configs/_base_/models/small_sd_lora.py`. -/
def small_sd_lora_model : ModelConfig :=
  { type := "StableDiffusion", model := "segmind/small-sd",
    unet_lora_config :=
      { type := "LoRA", r := 8, lora_alpha := 8,
        target_modules := ["to_q", "to_v", "to_k", "to_out.0"] } }

/-- `model` of `configs/_base_/models/lcm_xl_lora.py` (the LoRA-relevant
entries; the config additionally sets `vae_model`, `loss`,
`pre_compute_text_embeddings` and `gradient_checkpointing`). -/
def lcm_xl_lora_model : ModelConfig :=
  { type := "LatentConsistencyModelsXL",
    model := "stabilityai/stable-diffusion-xl-base-1.0",
    unet_lora_config :=
      { type := "LoRA", r := 8, lora_alpha := 1,
        target_modules := ["to_q", "to_k", "to_v", "to_out.0", "proj_in",
          "proj_out", "ff.net.0.proj", "ff.net.2", "conv1", "conv2",
          "conv_shortcut", "downsamplers.0.conv", "upsamplers.0.conv",
          "time_emb_proj"] } }

/-- C10: both LoRA model base configs set `unet_lora_config` with type
`LoRA` and rank `r = 8` over a non-empty target module list; the small-SD
variant uses `lora_alpha = 8` over the four attention projections, the
LCM-XL variant `lora_alpha = 1` over fourteen target modules. -/
theorem lora_model_configs :
    small_sd_lora_model.unet_lora_config.type = "LoRA" ∧
    small_sd_lora_model.unet_lora_config.r = 8 ∧
    small_sd_lora_model.unet_lora_config.lora_alpha = 8 ∧
    small_sd_lora_model.unet_lora_config.target_modules =
      ["to_q", "to_v", "to_k", "to_out.0"] ∧
    small_sd_lora_model.unet_lora_config.target_modules ≠ [] ∧
    lcm_xl_lora_model.unet_lora_config.type = "LoRA" ∧
    lcm_xl_lora_model.unet_lora_config.r = 8 ∧
    lcm_xl_lora_model.unet_lora_config.lora_alpha = 1 ∧
    lcm_xl_lora_model.unet_lora_config.target_modules.length = 14 ∧
    lcm_xl_lora_model.unet_lora_config.target_modules ≠ [] := by
  decide

end Diffengine
